import Mathlib

/-!
Verification of the PO-frontend invoice service layer.

This file gives a shallow embedding, in Lean 4, of the client-side service
code of the PO-management dashboard:

  * `src/lib/ai-invoice-service.ts`      (response normalizer, fallback id,
                                          invoice generation orchestrator)
  * `src/lib/invoice-error-handler.ts`   (bounded error buffer)
  * `src/lib/reminder-activity-tracker.ts` (1-hour activity cache)
  * `src/lib/send-reminder-service.ts`   (invoice dispatch validation and send)

JavaScript runtime values are modelled by the inductive `JSValue`; JavaScript
numbers by `JSNum` (NaN and the infinities are explicit constructors, finite
values are exact rationals — IEEE-754 rounding is abstracted away, which is
exact on every value these claims touch).  Machine time (`Date.now()`) and
`Math.random()` are passed in as explicit parameters.  Fallible code returns
`Option`/an explicit result inductive; a JavaScript `TypeError` escaping a
function is modelled by a dedicated constructor (`NormResult.throws`).
-/

/-! ## JavaScript value model -/

/-- A JavaScript number: `NaN`, the two infinities, or a finite value
(modelled as an exact rational). -/
inductive JSNum where
  | nan
  | inf
  | ninf
  | val (q : ℚ)
deriving DecidableEq, Repr

/-- A JavaScript runtime value as it can occur in a parsed JSON response
(plus `undefined`).  Object fields are an association list with the first
binding of a key the visible one. -/
inductive JSValue where
  | null
  | undef
  | bool (b : Bool)
  | num (q : ℚ)
  | str (s : String)
  | arr (elems : List JSValue)
  | obj (fields : List (String × JSValue))

/-- JavaScript truthiness of a `JSNum`: `NaN` and `0` are falsy. -/
def JSNum.truthy : JSNum → Bool
  | .nan => false
  | .inf => true
  | .ninf => true
  | .val q => decide (q ≠ 0)

/-- JavaScript truthiness: `null`, `undefined`, `false`, `0`, `NaN` and `""`
are falsy, everything else (including `[]` and `{}`) is truthy. -/
def jsTruthy : JSValue → Bool
  | .null => false
  | JSValue.undef => false
  | .bool b => b
  | .num q => decide (q ≠ 0)
  | .str s => decide (s ≠ "")
  | .arr _ => true
  | .obj _ => true

/-- `typeof v === "object"`: true for `null`, arrays and plain objects. -/
def jsTypeofIsObject : JSValue → Bool
  | .null => true
  | .arr _ => true
  | .obj _ => true
  | _ => false

/-- `typeof v === "string"`. -/
def jsTypeofIsString : JSValue → Bool
  | .str _ => true
  | _ => false

/-- First binding of a key in an object's field list. -/
def lookupField : List (String × JSValue) → String → JSValue
  | [], _ => JSValue.undef
  | (k', v) :: rest, k => if k' = k then v else lookupField rest k

/-- Property access `v.k` (and null-safe `v?.k`) as used by the services:
a missing key, or access on a primitive or an array (the accessed keys are
never array indices or `length`), yields `undefined`.  The services only
apply plain access to values they have established to be objects, and use
optional chaining (`?.`) everywhere else, so the throwing access on
`null`/`undefined` is modelled separately (see `normalizeItem`). -/
def getField (v : JSValue) (k : String) : JSValue :=
  match v with
  | .obj fs => lookupField fs k
  | _ => JSValue.undef

/-- JavaScript `a || b`: `a` when truthy, else `b`. -/
def jsOr (a b : JSValue) : JSValue :=
  if jsTruthy a then a else b

/-- JavaScript `a || b` on numbers (used for `Number(x) || default`). -/
def numOr (a b : JSNum) : JSNum :=
  if a.truthy then a else b

/-! ## JavaScript string helpers: trim, padStart, includes -/

/-- The character class `\s` of the regexes and of `String.prototype.trim`
(modelled by Unicode whitespace as Lean's `Char.isWhitespace`). -/
def jsWs (c : Char) : Bool := c.isWhitespace

/-- `String.prototype.trim` on the character list: drop whitespace from both
ends. -/
def trimChars (cs : List Char) : List Char :=
  ((cs.dropWhile jsWs).reverse.dropWhile jsWs).reverse

/-- `String.prototype.trim`. -/
def jsTrim (s : String) : String :=
  String.mk (trimChars s.data)

/-- `String.prototype.padStart(3, "0")`. -/
def padStart3 (s : String) : String :=
  if s.length ≥ 3 then s
  else String.mk (List.replicate (3 - s.length) '0') ++ s

/-- `a.includes(pat)` on character lists. -/
def listIncludes (cs pat : List Char) : Bool :=
  (List.range (cs.length + 1)).any (fun i => pat.isPrefixOf (cs.drop i))

/-- `String.prototype.includes`. -/
def strIncludes (s pat : String) : Bool :=
  listIncludes s.data pat.data

/-! ## Facts about `trimChars` -/

theorem dropWhile_of_head_false {p : Char → Bool} :
    ∀ {cs : List Char}, (∀ c, cs.head? = some c → p c = false) →
      cs.dropWhile p = cs := by
  intro cs h
  cases cs with
  | nil => rfl
  | cons c rest =>
    have hc : p c = false := h c rfl
    simp [List.dropWhile, hc]

theorem head_dropWhile_false {p : Char → Bool} :
    ∀ (cs : List Char) (c : Char),
      (cs.dropWhile p).head? = some c → p c = false := by
  intro cs
  induction cs with
  | nil => intro c h; simp [List.dropWhile] at h
  | cons x rest ih =>
    intro c h
    by_cases hx : p x
    · simp [List.dropWhile, hx] at h
      exact ih c h
    · simp [List.dropWhile, hx] at h
      subst h
      simpa using hx

theorem trimChars_eq_nil_iff (cs : List Char) :
    trimChars cs = [] ↔ ∀ c ∈ cs, jsWs c = true := by
  unfold trimChars
  constructor
  · intro h c hc
    rw [List.reverse_eq_nil_iff, List.dropWhile_eq_nil_iff] at h
    rw [← List.takeWhile_append_dropWhile jsWs cs] at hc
    rcases List.mem_append.mp hc with htk | hdr
    · exact List.mem_takeWhile_imp htk
    · exact h c (List.mem_reverse.mpr hdr)
  · intro h
    have h1 : cs.dropWhile jsWs = [] := by
      rw [List.dropWhile_eq_nil_iff]
      intro c hc; exact h c hc
    rw [h1]
    rfl

theorem trimChars_of_ends (cs : List Char)
    (h1 : ∀ c, cs.head? = some c → jsWs c = false)
    (h2 : ∀ c, cs.getLast? = some c → jsWs c = false) :
    trimChars cs = cs := by
  unfold trimChars
  rw [dropWhile_of_head_false h1]
  have h3 : cs.reverse.dropWhile jsWs = cs.reverse := by
    apply dropWhile_of_head_false
    intro c hc
    rw [List.head?_reverse] at hc
    exact h2 c hc
  rw [h3, List.reverse_reverse]

theorem trimChars_idem (cs : List Char) :
    trimChars (trimChars cs) = trimChars cs := by
  apply trimChars_of_ends
  · -- the head of a trimmed list is not whitespace
    intro c hc
    unfold trimChars at hc
    rw [List.head?_reverse] at hc
    -- c is the last element of a dropWhile result, hence the last element
    -- of the (nonempty) list it was computed from, which is a head of a
    -- dropWhile result after reversing
    have hne : (cs.dropWhile jsWs).reverse.dropWhile jsWs ≠ [] := by
      intro hnil
      rw [hnil] at hc
      simp at hc
    have hsub : ((cs.dropWhile jsWs).reverse.dropWhile jsWs).getLast? =
        (cs.dropWhile jsWs).reverse.getLast? := by
      conv_rhs => rw [← List.takeWhile_append_dropWhile jsWs (cs.dropWhile jsWs).reverse]
      rw [List.getLast?_append]
      cases hlast : ((cs.dropWhile jsWs).reverse.dropWhile jsWs).getLast? with
      | none => exact absurd (List.getLast?_eq_none_iff.mp hlast) hne
      | some x => rfl
    rw [hsub, List.getLast?_reverse] at hc
    exact head_dropWhile_false cs c hc
  · intro c hc
    unfold trimChars at hc
    rw [List.getLast?_reverse] at hc
    exact head_dropWhile_false _ c hc

theorem jsTrim_idem (s : String) : jsTrim (jsTrim s) = jsTrim s := by
  unfold jsTrim
  rw [show (String.mk (trimChars s.data)).data = trimChars s.data from rfl,
    trimChars_idem]

/-! ## JavaScript `Number(...)` coercion -/

/-- Numeric value of a decimal digit character. -/
def decDigitVal (c : Char) : ℕ := c.toNat - 48

/-- Parse a nonempty all-decimal-digit character list as a natural number. -/
def parseDecNat? (cs : List Char) : Option ℕ :=
  if cs ≠ [] ∧ cs.all Char.isDigit then
    some (cs.foldl (fun a c => a * 10 + decDigitVal c) 0)
  else none

/-- Hex digit test for the `0x` literal form of `Number(string)`. -/
def isHexDigitChar (c : Char) : Bool :=
  c.isDigit || ('a' ≤ c && c ≤ 'f') || ('A' ≤ c && c ≤ 'F')

/-- Numeric value of a hex digit character. -/
def hexDigitVal (c : Char) : ℕ :=
  if c.isDigit then c.toNat - 48
  else if 'a' ≤ c && c ≤ 'f' then c.toNat - 87
  else c.toNat - 55

/-- Parse a nonempty digit list in the given base (digits tested by `isD`,
valued by `toD`). -/
def parseBaseNat? (base : ℕ) (isD : Char → Bool) (toD : Char → ℕ)
    (cs : List Char) : Option ℕ :=
  if cs ≠ [] ∧ cs.all isD then
    some (cs.foldl (fun a c => a * base + toD c) 0)
  else none

/-- Split a character list at the first character satisfying `p`, dropping
that character. -/
def splitFirst (p : Char → Bool) : List Char → Option (List Char × List Char)
  | [] => none
  | c :: rest =>
    if p c then some ([], rest)
    else (splitFirst p rest).map (fun x => (c :: x.1, x.2))

/-- The unsigned decimal mantissa of the `Number(string)` grammar:
`digits [. digits?]` or `. digits` (at least one digit in total). -/
def parseMantissa? (cs : List Char) : Option ℚ :=
  match splitFirst (fun c => c = '.') cs with
  | none => (parseDecNat? cs).map (fun n => (n : ℚ))
  | some (ip, fp) =>
    if (ip ≠ [] ∨ fp ≠ []) ∧ ip.all Char.isDigit ∧ fp.all Char.isDigit then
      some ((ip.foldl (fun a c => a * 10 + decDigitVal c) 0 : ℕ) +
        (fp.foldl (fun a c => a * 10 + decDigitVal c) 0 : ℕ) / (10 : ℚ) ^ fp.length)
    else none

/-- Unsigned decimal with optional exponent: `mantissa [e|E [sign] digits]`. -/
def parseUnsignedDec? (cs : List Char) : Option ℚ :=
  match splitFirst (fun c => c = 'e' || c = 'E') cs with
  | none => parseMantissa? cs
  | some (mant, ex) =>
    match parseMantissa? mant with
    | none => none
    | some m =>
      match ex with
      | '+' :: ds => (parseDecNat? ds).map (fun e => m * (10 : ℚ) ^ e)
      | '-' :: ds => (parseDecNat? ds).map (fun e => m / (10 : ℚ) ^ e)
      | ds => (parseDecNat? ds).map (fun e => m * (10 : ℚ) ^ e)

/-- Negation on JavaScript numbers. -/
def JSNum.negate : JSNum → JSNum
  | .nan => .nan
  | .inf => .ninf
  | .ninf => .inf
  | .val q => .val (-q)

/-- The unsigned part of the decimal branch of `Number(string)`:
`Infinity` or an unsigned decimal. -/
def parseUnsignedMain (cs : List Char) : JSNum :=
  if cs = "Infinity".data then .inf
  else
    match parseUnsignedDec? cs with
    | some q => .val q
    | none => .nan

/-- `Number(string)`: trim; empty means 0; `0x`/`0o`/`0b` literals; otherwise
an optionally signed decimal or `Infinity`.  (IEEE-754 rounding and overflow
to infinity are abstracted: finite decimals are read exactly.) -/
def jsParseNumber (s : String) : JSNum :=
  let t := trimChars s.data
  if t = [] then .val 0
  else
    match t with
    | '0' :: 'x' :: rest => match parseBaseNat? 16 isHexDigitChar hexDigitVal rest with
      | some n => .val n | none => .nan
    | '0' :: 'X' :: rest => match parseBaseNat? 16 isHexDigitChar hexDigitVal rest with
      | some n => .val n | none => .nan
    | '0' :: 'o' :: rest => match parseBaseNat? 8 (fun c => '0' ≤ c && c ≤ '7') decDigitVal rest with
      | some n => .val n | none => .nan
    | '0' :: 'O' :: rest => match parseBaseNat? 8 (fun c => '0' ≤ c && c ≤ '7') decDigitVal rest with
      | some n => .val n | none => .nan
    | '0' :: 'b' :: rest => match parseBaseNat? 2 (fun c => c = '0' || c = '1') decDigitVal rest with
      | some n => .val n | none => .nan
    | '0' :: 'B' :: rest => match parseBaseNat? 2 (fun c => c = '0' || c = '1') decDigitVal rest with
      | some n => .val n | none => .nan
    | '+' :: rest => parseUnsignedMain rest
    | '-' :: rest => (parseUnsignedMain rest).negate
    | _ => parseUnsignedMain t

/-- `Number(v)` for a single array element `[v]`, which JavaScript coerces
through the element's string form (`Number(String(v))`): `null`/`undefined`
join to the empty string (0), booleans and objects give non-numeric strings
(NaN), numbers and strings round-trip. -/
def jsArrElemToNumber : JSValue → JSNum
  | .null => .val 0
  | JSValue.undef => .val 0
  | .bool _ => .nan
  | .num q => .val q
  | .str s => jsParseNumber s
  | .arr [] => .val 0
  | .arr [x] => jsArrElemToNumber x
  | .arr _ => .nan
  | .obj _ => .nan

/-- JavaScript `Number(v)`. -/
def jsToNumber : JSValue → JSNum
  | .null => .val 0
  | JSValue.undef => .nan
  | .bool b => .val (if b then 1 else 0)
  | .num q => .val q
  | .str s => jsParseNumber s
  | .arr [] => .val 0
  | .arr [x] => jsArrElemToNumber x
  | .arr _ => .nan
  | .obj _ => .nan

/-! ## Decimal digits of `Nat.repr` -/

theorem digitChar_isDigit {m : ℕ} (h : m < 10) :
    (Nat.digitChar m).isDigit = true := by
  interval_cases m <;> decide

theorem toDigitsCore_digits :
    ∀ (fuel n : ℕ) (ds : List Char), (∀ c ∈ ds, c.isDigit = true) →
      ∀ c ∈ Nat.toDigitsCore 10 fuel n ds, c.isDigit = true := by
  intro fuel
  induction fuel with
  | zero => intro n ds hds c hc; exact hds c hc
  | succ f ih =>
    intro n ds hds c hc
    rw [Nat.toDigitsCore] at hc
    by_cases hz : n / 10 = 0
    · simp only [hz, if_pos] at hc
      rcases List.mem_cons.mp hc with h1 | h2
      · rw [h1]; exact digitChar_isDigit (Nat.mod_lt n (by norm_num))
      · exact hds c h2
    · simp only [hz, if_neg, if_false] at hc
      refine ih (n / 10) (Nat.digitChar (n % 10) :: ds) ?_ c hc
      intro c' hc'
      rcases List.mem_cons.mp hc' with h1 | h2
      · rw [h1]; exact digitChar_isDigit (Nat.mod_lt n (by norm_num))
      · exact hds c' h2

theorem toDigitsCore_eq_nil :
    ∀ (fuel n : ℕ) (ds : List Char), Nat.toDigitsCore 10 fuel n ds = [] → ds = [] := by
  intro fuel
  induction fuel with
  | zero => intro n ds h; exact h
  | succ f ih =>
    intro n ds h
    rw [Nat.toDigitsCore] at h
    by_cases hz : n / 10 = 0
    · simp only [hz, if_pos] at h
      exact absurd h (List.cons_ne_nil _ _)
    · simp only [hz, if_neg, if_false] at h
      have := ih (n / 10) (Nat.digitChar (n % 10) :: ds) h
      exact absurd this (List.cons_ne_nil _ _)

theorem toDigits_ne_nil (n : ℕ) : Nat.toDigits 10 n ≠ [] := by
  unfold Nat.toDigits
  rw [Nat.toDigitsCore]
  by_cases hz : n / 10 = 0
  · simp only [hz, if_pos]
    exact List.cons_ne_nil _ _
  · simp only [hz, if_neg, if_false]
    intro h
    have := toDigitsCore_eq_nil n (n / 10) (Nat.digitChar (n % 10) :: []) h
    exact absurd this (List.cons_ne_nil _ _)

theorem toDigitsCore_length :
    ∀ (fuel n : ℕ) (ds : List Char) (k : ℕ), 1 ≤ k → n < 10 ^ k →
      (Nat.toDigitsCore 10 fuel n ds).length ≤ k + ds.length := by
  intro fuel
  induction fuel with
  | zero => intro n ds k _ _; exact Nat.le_add_left ds.length k
  | succ f ih =>
    intro n ds k hk hn
    rw [Nat.toDigitsCore]
    by_cases hz : n / 10 = 0
    · simp only [hz, if_pos, List.length_cons]
      omega
    · simp only [hz, if_neg, if_false]
      have h10 : 10 ≤ n := by
        by_contra hlt
        exact hz (Nat.div_eq_of_lt (by omega))
      have hk2 : 2 ≤ k := by
        by_contra hk1
        have hkeq : k = 1 := by omega
        rw [hkeq] at hn
        simp at hn
        omega
      have hdiv : n / 10 < 10 ^ (k - 1) := by
        rw [Nat.div_lt_iff_lt_mul (by norm_num)]
        calc n < 10 ^ k := hn
        _ = 10 ^ (k - 1) * 10 := by
            rw [← pow_succ]
            congr 1
            omega
      have := ih (n / 10) (Nat.digitChar (n % 10) :: ds) (k - 1) (by omega) hdiv
      simp only [List.length_cons] at this
      omega

theorem repr_data_digits (n : ℕ) : ∀ c ∈ (Nat.repr n).data, c.isDigit = true := by
  intro c hc
  have hd : (Nat.repr n).data = Nat.toDigits 10 n := rfl
  rw [hd] at hc
  exact toDigitsCore_digits (n + 1) n [] (by intro c h; cases h) c hc

theorem repr_data_ne_nil (n : ℕ) : (Nat.repr n).data ≠ [] := by
  have hd : (Nat.repr n).data = Nat.toDigits 10 n := rfl
  rw [hd]
  exact toDigits_ne_nil n

theorem repr_length_le_three {r : ℕ} (h : r < 1000) : (Nat.repr r).length ≤ 3 := by
  have hd : (Nat.repr r).length = (Nat.toDigits 10 r).length := rfl
  rw [hd]
  exact toDigitsCore_length (r + 1) r [] 3 (by norm_num) (by norm_num; omega)

/-! ## Fallback invoice id (`generateFallbackInvoiceId`, ai-invoice-service.ts 22-28) -/

/-- `generateFallbackInvoiceId(poNumber)`: `now` models `Date.now()` and
`rand` models `Math.floor(Math.random() * 1000)` (a value in `0..999`),
passed in explicitly. -/
def generateFallbackInvoiceId (poNumber : String) (now rand : ℕ) : String :=
  "INV-" ++ poNumber ++ "-" ++ Nat.repr now ++ "-" ++ padStart3 (Nat.repr rand)

theorem padStart3_length {s : String} (h : s.length ≤ 3) :
    (padStart3 s).length = 3 := by
  unfold padStart3
  by_cases h3 : s.length ≥ 3
  · rw [if_pos h3]; omega
  · rw [if_neg h3, String.length_append]
    have hmk : (String.mk (List.replicate (3 - s.length) '0')).length =
        3 - s.length := by
      show (List.replicate (3 - s.length) '0').length = 3 - s.length
      exact List.length_replicate _ _
    omega

theorem padStart3_length_ge (s : String) : 3 ≤ (padStart3 s).length ∨
    padStart3 s = s := by
  unfold padStart3
  by_cases h3 : s.length ≥ 3
  · right; rw [if_pos h3]
  · left
    rw [if_neg h3, String.length_append]
    have hmk : (String.mk (List.replicate (3 - s.length) '0')).length =
        3 - s.length := by
      show (List.replicate (3 - s.length) '0').length = 3 - s.length
      exact List.length_replicate _ _
    omega

theorem padStart3_digits {s : String} (h : ∀ c ∈ s.data, c.isDigit = true) :
    ∀ c ∈ (padStart3 s).data, c.isDigit = true := by
  unfold padStart3
  by_cases h3 : s.length ≥ 3
  · rw [if_pos h3]; exact h
  · rw [if_neg h3]
    intro c hc
    rw [String.data_append] at hc
    rcases List.mem_append.mp hc with h1 | h2
    · have : c = '0' := List.eq_of_mem_replicate h1
      rw [this]; decide
    · exact h c h2

theorem padStart3_data_ne_nil {s : String} (hs : s.data ≠ []) :
    (padStart3 s).data ≠ [] := by
  unfold padStart3
  by_cases h3 : s.length ≥ 3
  · rw [if_pos h3]; exact hs
  · rw [if_neg h3, String.data_append]
    intro hnil
    rcases List.append_eq_nil.mp hnil with ⟨_, h2⟩
    exact hs h2

theorem isDigit_not_ws {c : Char} (h : c.isDigit = true) : jsWs c = false := by
  unfold jsWs
  cases hw : c.isWhitespace
  · rfl
  · exfalso
    simp only [Char.isWhitespace, Bool.or_eq_true, decide_eq_true_eq] at hw
    rcases hw with ((h1 | h1) | h1) | h1 <;> (subst h1; exact absurd h (by decide))

theorem generateFallbackInvoiceId_head (po : String) (now rand : ℕ) :
    (generateFallbackInvoiceId po now rand).data.head? = some 'I' := by
  unfold generateFallbackInvoiceId
  rw [String.data_append, String.data_append, String.data_append,
    String.data_append]
  rfl

theorem generateFallbackInvoiceId_last_digit (po : String) (now rand : ℕ) :
    ∀ c, (generateFallbackInvoiceId po now rand).data.getLast? = some c →
      c.isDigit = true := by
  intro c hc
  unfold generateFallbackInvoiceId at hc
  rw [String.data_append, List.getLast?_append] at hc
  have hne : (padStart3 (Nat.repr rand)).data ≠ [] :=
    padStart3_data_ne_nil (repr_data_ne_nil rand)
  cases hlast : (padStart3 (Nat.repr rand)).data.getLast? with
  | none => exact absurd (List.getLast?_eq_none_iff.mp hlast) hne
  | some x =>
    rw [hlast] at hc
    simp only [Option.or_some] at hc
    have hx : x ∈ (padStart3 (Nat.repr rand)).data :=
      List.mem_of_getLast?_eq_some hlast
    have hxc : x = c := Option.some.inj hc
    subst hxc
    exact padStart3_digits (repr_data_digits rand) x hx

/-- Trimming the synthesized fallback id is the identity: it starts with `I`
and ends with a digit. -/
theorem jsTrim_generateFallbackInvoiceId (po : String) (now rand : ℕ) :
    jsTrim (generateFallbackInvoiceId po now rand) =
      generateFallbackInvoiceId po now rand := by
  unfold jsTrim
  have h := trimChars_of_ends (generateFallbackInvoiceId po now rand).data
    (by
      intro c hc
      rw [generateFallbackInvoiceId_head] at hc
      cases hc
      decide)
    (by
      intro c hc
      exact isDigit_not_ws (generateFallbackInvoiceId_last_digit po now rand c hc))
  rw [h]

/-! ## Response normalizer (`validateAndNormalizeInvoiceResponse`,
ai-invoice-service.ts 33-131)

The normalized invoice mirrors what the JavaScript object actually holds at
runtime: the id is a string (trimmed, possibly synthesized), the item and
summary numeric fields are numbers (the `Number(x) || d` pattern), and every
other field is the `a || b || default` chain's value — which is the upstream
value verbatim whenever it is truthy (of any type), and a default string
otherwise. -/

structure NormContact where
  company : JSValue
  contact : JSValue
  address : JSValue
  phone : JSValue
  email : JSValue

structure NormItem where
  description : JSValue
  qty : JSNum
  unit : JSValue
  unit_price : JSNum
  total : JSNum

structure NormSummary where
  subtotal : JSNum
  discount : JSNum
  freight : JSNum
  tax : JSNum
  total : JSNum

structure NormInvoice where
  invoice_id : String
  invoice_date : JSValue
  due_date : JSValue
  payment_terms : JSValue
  shipping_method : JSValue
  bill_to : NormContact
  vendor : NormContact
  items : List NormItem
  summary : NormSummary
  notes : JSValue
  payment_status : JSValue

/-- Outcome of the normalizer: a thrown `TypeError` (a `null`/`undefined`
element inside the upstream `items` array), the explicit `null` return, or a
normalized invoice. -/
inductive NormResult where
  | throws
  | fail
  | ok (inv : NormInvoice)

/-- The ordered wrapper candidates (line 44). -/
def wrapperKeys : List String := ["data", "invoice", "result", "response"]

/-- The wrapper-unwrapping loop (lines 46-52): the first candidate key whose
value is truthy and of type object is unwrapped, else the raw object is used
as-is. -/
def unwrapResponse (raw : JSValue) : JSValue :=
  match wrapperKeys.find?
      (fun w => jsTruthy (getField raw w) && jsTypeofIsObject (getField raw w)) with
  | some w => getField raw w
  | none => raw

/-- The identifier `||` chain (line 58):
`actualData.invoice_id || actualData.invoiceId || actualData.id ||
actualData.invoice_number`. -/
def idChain (a : JSValue) : JSValue :=
  jsOr (getField a "invoice_id")
    (jsOr (getField a "invoiceId")
      (jsOr (getField a "id") (getField a "invoice_number")))

/-- The identifier check (line 60): the chain's value is usable iff it is
truthy, of type string, and nonempty after trimming; since a string is
truthy iff nonempty, this is: a string with a nonempty trim.  Returns the
untrimmed string (the trim of line 87 is applied when the invoice is
built). -/
def resolveInvoiceId (a : JSValue) : Option String :=
  match idChain a with
  | .str s => if jsTrim s = "" then none else some s
  | _ => none

/-- One item of the `items.map` (lines 110-116).  A `null`/`undefined`
element makes the arrow function's `item.description` access throw a
`TypeError` (`none`); every other value (object or primitive) yields
`undefined` for missing properties. -/
def normalizeItem (idx : ℕ) (item : JSValue) : Option NormItem :=
  match item with
  | .null => none
  | JSValue.undef => none
  | _ => some {
      description := jsOr (getField item "description")
        (.str ("Item " ++ Nat.repr (idx + 1)))
      qty := numOr (jsToNumber (getField item "qty")) (.val 1)
      unit := jsOr (getField item "unit") (.str "Each")
      unit_price := numOr (jsToNumber (getField item "unit_price"))
        (numOr (jsToNumber (getField item "unitPrice")) (.val 0))
      total := numOr (jsToNumber (getField item "total")) (.val 0) }

/-- `items.map` with indices; `none` when some element throws. -/
def normalizeItemList : List JSValue → ℕ → Option (List NormItem)
  | [], _ => some []
  | x :: rest, idx =>
    match normalizeItem idx x with
    | none => none
    | some it =>
      match normalizeItemList rest (idx + 1) with
      | none => none
      | some its => some (it :: its)

/-- Lines 109-117: `Array.isArray(actualData.items) ? actualData.items.map(...) : []`. -/
def normalizeItems (items : JSValue) : Option (List NormItem) :=
  match items with
  | .arr xs => normalizeItemList xs 0
  | _ => some []

/-- The `bill_to` contact (lines 95-101): snake_case, then camelCase
(`billTo`), then placeholder defaults; `phone`/`email` default to `""`. -/
def normContactBillTo (a : JSValue) : NormContact :=
  { company := jsOr (getField (getField a "bill_to") "company")
      (jsOr (getField (getField a "billTo") "company") (.str "Unknown Company"))
    contact := jsOr (getField (getField a "bill_to") "contact")
      (jsOr (getField (getField a "billTo") "contact") (.str "Unknown Contact"))
    address := jsOr (getField (getField a "bill_to") "address")
      (jsOr (getField (getField a "billTo") "address") (.str "Unknown Address"))
    phone := jsOr (getField (getField a "bill_to") "phone")
      (jsOr (getField (getField a "billTo") "phone") (.str ""))
    email := jsOr (getField (getField a "bill_to") "email")
      (jsOr (getField (getField a "billTo") "email") (.str "")) }

/-- The `vendor` contact (lines 102-108): `vendor` key only, with
placeholder defaults. -/
def normContactVendor (a : JSValue) : NormContact :=
  { company := jsOr (getField (getField a "vendor") "company") (.str "Unknown Vendor")
    contact := jsOr (getField (getField a "vendor") "contact") (.str "Unknown Contact")
    address := jsOr (getField (getField a "vendor") "address") (.str "Unknown Address")
    phone := jsOr (getField (getField a "vendor") "phone") (.str "")
    email := jsOr (getField (getField a "vendor") "email") (.str "") }

/-- The summary (lines 118-124): `Number(actualData.summary?.f) || 0` for
each of the five fields. -/
def normSummary (a : JSValue) : NormSummary :=
  { subtotal := numOr (jsToNumber (getField (getField a "summary") "subtotal")) (.val 0)
    discount := numOr (jsToNumber (getField (getField a "summary") "discount")) (.val 0)
    freight := numOr (jsToNumber (getField (getField a "summary") "freight")) (.val 0)
    tax := numOr (jsToNumber (getField (getField a "summary") "tax")) (.val 0)
    total := numOr (jsToNumber (getField (getField a "summary") "total")) (.val 0) }

/-- The normalized record of lines 86-127, given the unwrapped data `a`,
the resolved or synthesized `invoiceId` (trimmed at line 87), and the
already-mapped items. -/
def buildNormInvoice (a : JSValue) (invoiceId : String) (items : List NormItem)
    (now : ℕ) (dateStr : ℕ → String) : NormInvoice :=
  { invoice_id := jsTrim invoiceId
    invoice_date := jsOr (getField a "invoice_date")
      (jsOr (getField a "invoiceDate") (.str (dateStr now)))
    due_date := jsOr (getField a "due_date")
      (jsOr (getField a "dueDate")
        (.str (dateStr (now + 30 * 24 * 60 * 60 * 1000))))
    payment_terms := jsOr (getField a "payment_terms")
      (jsOr (getField a "paymentTerms") (.str "Net 30"))
    shipping_method := jsOr (getField a "shipping_method")
      (jsOr (getField a "shippingMethod") (.str "Standard"))
    bill_to := normContactBillTo a
    vendor := normContactVendor a
    items := items
    summary := normSummary a
    notes := jsOr (getField a "notes") (.str "")
    payment_status := jsOr (getField a "payment_status")
      (jsOr (getField a "paymentStatus") (.str "Pending")) }

/-- `validateAndNormalizeInvoiceResponse(rawResponse, poNumber?)`
(lines 33-131).  `now` models `Date.now()`, `rand` models
`Math.floor(Math.random() * 1000)`, and `dateStr ms` models
`new Date(ms).toISOString().split("T")[0]`.  The `missingFields`
computation of lines 72-83 only feeds `console.warn` and is omitted. -/
def validateAndNormalizeInvoiceResponse (raw : JSValue) (poNumber : Option String)
    (now rand : ℕ) (dateStr : ℕ → String) : NormResult :=
  if !jsTruthy raw || !jsTypeofIsObject raw then .fail
  else
    let a := unwrapResponse raw
    let idOpt : Option String :=
      match resolveInvoiceId a with
      | some s => some s
      | none =>
        match poNumber with
        | some po => if po = "" then none else some (generateFallbackInvoiceId po now rand)
        | none => none
    match idOpt with
    | none => .fail
    | some invoiceId =>
      match normalizeItems (getField a "items") with
      | none => .throws
      | some items => .ok (buildNormInvoice a invoiceId items now dateStr)

/-- A runtime value that is neither `undefined` nor `null`. -/
def jsDefinedNonNull (v : JSValue) : Prop := v ≠ .null ∧ v ≠ JSValue.undef

theorem jsTruthy_defined {v : JSValue} (h : jsTruthy v = true) :
    jsDefinedNonNull v := by
  constructor <;> (intro he; subst he; exact Bool.noConfusion h)

theorem jsOr_defined (a : JSValue) {d : JSValue} (hd : jsDefinedNonNull d) :
    jsDefinedNonNull (jsOr a d) := by
  unfold jsOr
  by_cases ht : jsTruthy a
  · rw [if_pos ht]; exact jsTruthy_defined ht
  · rw [if_neg ht]; exact hd

theorem jsOr_str_defined (a : JSValue) (s : String) :
    jsDefinedNonNull (jsOr a (.str s)) :=
  jsOr_defined a (by constructor <;> intro h <;> exact JSValue.noConfusion h)

theorem jsOr2_str_defined (a b : JSValue) (s : String) :
    jsDefinedNonNull (jsOr a (jsOr b (.str s))) :=
  jsOr_defined a (jsOr_str_defined b s)

/-! ## Helper lemmas about the normalizer -/

/-- Truthiness of the optional `poNumber` hint (`if (poNumber)`). -/
def hintTruthy : Option String → Bool
  | some po => decide (po ≠ "")
  | none => false

theorem numOr_ne_nan {x d : JSNum} (hd : d ≠ .nan) : numOr x d ≠ .nan := by
  unfold numOr
  by_cases hx : x.truthy
  · rw [if_pos hx]
    intro he
    rw [he] at hx
    exact Bool.noConfusion hx
  · rw [if_neg hx]; exact hd

theorem numOr_val_ne_nan (x : JSNum) (q : ℚ) : numOr x (.val q) ≠ .nan :=
  numOr_ne_nan (fun h => JSNum.noConfusion h)

/-- All five contact fields are present and non-null. -/
def contactDefined (c : NormContact) : Prop :=
  jsDefinedNonNull c.company ∧ jsDefinedNonNull c.contact ∧
  jsDefinedNonNull c.address ∧ jsDefinedNonNull c.phone ∧ jsDefinedNonNull c.email

theorem normContactBillTo_defined (a : JSValue) : contactDefined (normContactBillTo a) :=
  ⟨jsOr2_str_defined _ _ _, jsOr2_str_defined _ _ _, jsOr2_str_defined _ _ _,
   jsOr2_str_defined _ _ _, jsOr2_str_defined _ _ _⟩

theorem normContactVendor_defined (a : JSValue) : contactDefined (normContactVendor a) :=
  ⟨jsOr_str_defined _ _, jsOr_str_defined _ _, jsOr_str_defined _ _,
   jsOr_str_defined _ _, jsOr_str_defined _ _⟩

/-- All five per-item output fields are defined: the two value-chain fields
are non-null, the three numeric fields are genuine numbers (never NaN). -/
def itemDefined (it : NormItem) : Prop :=
  jsDefinedNonNull it.description ∧ jsDefinedNonNull it.unit ∧
  it.qty ≠ .nan ∧ it.unit_price ≠ .nan ∧ it.total ≠ .nan

theorem itemDefined_build (item : JSValue) (idx : ℕ) :
    itemDefined {
      description := jsOr (getField item "description")
        (.str ("Item " ++ Nat.repr (idx + 1)))
      qty := numOr (jsToNumber (getField item "qty")) (.val 1)
      unit := jsOr (getField item "unit") (.str "Each")
      unit_price := numOr (jsToNumber (getField item "unit_price"))
        (numOr (jsToNumber (getField item "unitPrice")) (.val 0))
      total := numOr (jsToNumber (getField item "total")) (.val 0) } :=
  ⟨jsOr_str_defined _ _, jsOr_str_defined _ _, numOr_val_ne_nan _ _,
    numOr_ne_nan (numOr_val_ne_nan _ _), numOr_val_ne_nan _ _⟩

theorem normalizeItem_defined {idx : ℕ} {item : JSValue} {it : NormItem}
    (h : normalizeItem idx item = some it) : itemDefined it := by
  cases item with
  | null => exact absurd h (by simp [normalizeItem])
  | undef => exact absurd h (by simp [normalizeItem])
  | bool b => obtain rfl := Option.some.inj h; exact itemDefined_build _ _
  | num q => obtain rfl := Option.some.inj h; exact itemDefined_build _ _
  | str s => obtain rfl := Option.some.inj h; exact itemDefined_build _ _
  | arr xs => obtain rfl := Option.some.inj h; exact itemDefined_build _ _
  | obj fs => obtain rfl := Option.some.inj h; exact itemDefined_build _ _

theorem normalizeItemList_spec :
    ∀ (xs : List JSValue) (idx : ℕ) (its : List NormItem),
      normalizeItemList xs idx = some its →
        its.length = xs.length ∧ ∀ it ∈ its, itemDefined it := by
  intro xs
  induction xs with
  | nil =>
    intro idx its h
    obtain rfl := Option.some.inj h
    exact ⟨rfl, by intro it hit; cases hit⟩
  | cons x rest ih =>
    intro idx its h
    unfold normalizeItemList at h
    cases hx : normalizeItem idx x with
    | none => rw [hx] at h; exact absurd h (by simp)
    | some it0 =>
      rw [hx] at h
      cases hrest : normalizeItemList rest (idx + 1) with
      | none => rw [hrest] at h; exact absurd h (by simp)
      | some its0 =>
        rw [hrest] at h
        obtain rfl := Option.some.inj h
        obtain ⟨hlen, hdef⟩ := ih (idx + 1) its0 hrest
        constructor
        · simp [hlen]
        · intro it hit
          rcases List.mem_cons.mp hit with h1 | h2
          · rw [h1]; exact normalizeItem_defined hx
          · exact hdef it h2

theorem generateFallbackInvoiceId_ne_empty (po : String) (now rand : ℕ) :
    generateFallbackInvoiceId po now rand ≠ "" := by
  intro h
  have hh := generateFallbackInvoiceId_head po now rand
  rw [h] at hh
  exact Option.noConfusion hh

/-- What `resolveInvoiceId` guarantees when it succeeds. -/
theorem resolveInvoiceId_spec {a : JSValue} {s : String}
    (h : resolveInvoiceId a = some s) : idChain a = .str s ∧ jsTrim s ≠ "" := by
  unfold resolveInvoiceId at h
  cases hv : idChain a with
  | str t =>
    rw [hv] at h
    by_cases ht : jsTrim t = ""
    · simp only [ht, if_true] at h
      exact Option.noConfusion h
    · simp only [ht, if_false, Option.some.injEq] at h
      subst h
      exact ⟨rfl, ht⟩
  | null => rw [hv] at h; exact Option.noConfusion h
  | undef => rw [hv] at h; exact Option.noConfusion h
  | bool b => rw [hv] at h; exact Option.noConfusion h
  | num q => rw [hv] at h; exact Option.noConfusion h
  | arr xs => rw [hv] at h; exact Option.noConfusion h
  | obj fs => rw [hv] at h; exact Option.noConfusion h

theorem jsTrim_ne_empty_of_resolved {a : JSValue} {s : String}
    (h : resolveInvoiceId a = some s) : jsTrim s ≠ "" :=
  (resolveInvoiceId_spec h).2

theorem normalizeItems_spec {v : JSValue} {items : List NormItem}
    (h : normalizeItems v = some items) :
    (∀ it ∈ items, itemDefined it) ∧
    (∀ xs, v = .arr xs → items.length = xs.length) ∧
    ((∀ xs, v ≠ .arr xs) → items = []) := by
  cases v with
  | arr xs =>
    have hl := normalizeItemList_spec xs 0 items h
    refine ⟨hl.2, ?_, ?_⟩
    · intro xs' heq
      obtain rfl : xs = xs' := by injection heq
      exact hl.1
    · intro hne
      exact absurd rfl (hne xs)
  | null =>
    obtain rfl := Option.some.inj h
    exact ⟨(by intro it hit; cases hit), (fun xs heq => JSValue.noConfusion heq),
      fun _ => rfl⟩
  | undef =>
    obtain rfl := Option.some.inj h
    exact ⟨(by intro it hit; cases hit), (fun xs heq => JSValue.noConfusion heq),
      fun _ => rfl⟩
  | bool b =>
    obtain rfl := Option.some.inj h
    exact ⟨(by intro it hit; cases hit), (fun xs heq => JSValue.noConfusion heq),
      fun _ => rfl⟩
  | num q =>
    obtain rfl := Option.some.inj h
    exact ⟨(by intro it hit; cases hit), (fun xs heq => JSValue.noConfusion heq),
      fun _ => rfl⟩
  | str s =>
    obtain rfl := Option.some.inj h
    exact ⟨(by intro it hit; cases hit), (fun xs heq => JSValue.noConfusion heq),
      fun _ => rfl⟩
  | obj fs =>
    obtain rfl := Option.some.inj h
    exact ⟨(by intro it hit; cases hit), (fun xs heq => JSValue.noConfusion heq),
      fun _ => rfl⟩

theorem normalize_eq_ok_resolved {raw : JSValue} (hint : Option String)
    {now rand : ℕ} (dateStr : ℕ → String) {s : String} {items : List NormItem}
    (hobj : jsTruthy raw = true) (htype : jsTypeofIsObject raw = true)
    (hs : resolveInvoiceId (unwrapResponse raw) = some s)
    (hitems : normalizeItems (getField (unwrapResponse raw) "items") = some items) :
    validateAndNormalizeInvoiceResponse raw hint now rand dateStr =
      .ok (buildNormInvoice (unwrapResponse raw) s items now dateStr) := by
  simp [validateAndNormalizeInvoiceResponse, hobj, htype, hs, hitems]

theorem normalize_eq_ok_fallback {raw : JSValue} {po : String}
    {now rand : ℕ} (dateStr : ℕ → String) {items : List NormItem}
    (hobj : jsTruthy raw = true) (htype : jsTypeofIsObject raw = true)
    (hs : resolveInvoiceId (unwrapResponse raw) = none) (hpo : po ≠ "")
    (hitems : normalizeItems (getField (unwrapResponse raw) "items") = some items) :
    validateAndNormalizeInvoiceResponse raw (some po) now rand dateStr =
      .ok (buildNormInvoice (unwrapResponse raw)
        (generateFallbackInvoiceId po now rand) items now dateStr) := by
  simp [validateAndNormalizeInvoiceResponse, hobj, htype, hs, hpo, hitems]

theorem normalize_eq_fail_iff (raw : JSValue) (hint : Option String)
    (now rand : ℕ) (dateStr : ℕ → String) :
    validateAndNormalizeInvoiceResponse raw hint now rand dateStr = .fail ↔
      (jsTruthy raw = false ∨ jsTypeofIsObject raw = false) ∨
      (resolveInvoiceId (unwrapResponse raw) = none ∧ hintTruthy hint = false) := by
  cases hobj : jsTruthy raw with
  | false => simp [validateAndNormalizeInvoiceResponse, hobj]
  | true =>
    cases htype : jsTypeofIsObject raw with
    | false => simp [validateAndNormalizeInvoiceResponse, hobj, htype]
    | true =>
      cases hres : resolveInvoiceId (unwrapResponse raw) with
      | some s =>
        cases hit : normalizeItems (getField (unwrapResponse raw) "items") with
        | none => simp [validateAndNormalizeInvoiceResponse, hobj, htype, hres, hit]
        | some its => simp [validateAndNormalizeInvoiceResponse, hobj, htype, hres, hit]
      | none =>
        cases hint with
        | none => simp [validateAndNormalizeInvoiceResponse, hobj, htype, hres, hintTruthy]
        | some po =>
          by_cases hpo : po = ""
          · subst hpo
            simp [validateAndNormalizeInvoiceResponse, hobj, htype, hres, hintTruthy]
          · cases hit : normalizeItems (getField (unwrapResponse raw) "items") with
            | none =>
              simp [validateAndNormalizeInvoiceResponse, hobj, htype, hres, hpo, hit,
                hintTruthy]
            | some its =>
              simp [validateAndNormalizeInvoiceResponse, hobj, htype, hres, hpo, hit,
                hintTruthy]

theorem buildNormInvoice_defined (a : JSValue) (id : String)
    (items : List NormItem) (now : ℕ) (d : ℕ → String) :
    (buildNormInvoice a id items now d).invoice_id = jsTrim id ∧
    jsDefinedNonNull (buildNormInvoice a id items now d).invoice_date ∧
    jsDefinedNonNull (buildNormInvoice a id items now d).due_date ∧
    jsDefinedNonNull (buildNormInvoice a id items now d).payment_terms ∧
    jsDefinedNonNull (buildNormInvoice a id items now d).shipping_method ∧
    contactDefined (buildNormInvoice a id items now d).bill_to ∧
    contactDefined (buildNormInvoice a id items now d).vendor ∧
    (buildNormInvoice a id items now d).items = items ∧
    (buildNormInvoice a id items now d).summary.subtotal ≠ .nan ∧
    (buildNormInvoice a id items now d).summary.discount ≠ .nan ∧
    (buildNormInvoice a id items now d).summary.freight ≠ .nan ∧
    (buildNormInvoice a id items now d).summary.tax ≠ .nan ∧
    (buildNormInvoice a id items now d).summary.total ≠ .nan ∧
    jsDefinedNonNull (buildNormInvoice a id items now d).notes ∧
    jsDefinedNonNull (buildNormInvoice a id items now d).payment_status :=
  ⟨rfl, jsOr2_str_defined _ _ _, jsOr2_str_defined _ _ _, jsOr2_str_defined _ _ _,
    jsOr2_str_defined _ _ _, normContactBillTo_defined a, normContactVendor_defined a,
    rfl, numOr_val_ne_nan _ _, numOr_val_ne_nan _ _, numOr_val_ne_nan _ _,
    numOr_val_ne_nan _ _, numOr_val_ne_nan _ _, jsOr_str_defined _ _,
    jsOr2_str_defined _ _ _⟩

/-! ## Claim C1 -/

/-- C1 counterexample: the claim asserts that for any non-null object input
with a resolvable identifier, every string-typed field of the output — in
particular `notes` — is a string.  On the input
`{invoice_id: "X", notes: 42}` the normalizer succeeds but copies the truthy
number `42` into `notes` verbatim (`actualData.notes || ""` takes the first
truthy value with no type check), so the output `notes` is a number, not a
string. -/
theorem c1_counterexample :
    validateAndNormalizeInvoiceResponse
        (.obj [("invoice_id", .str "X"), ("notes", .num 42)]) none 0 0
        (fun _ => "1970-01-01") =
      .ok { invoice_id := "X"
            invoice_date := .str "1970-01-01"
            due_date := .str "1970-01-01"
            payment_terms := .str "Net 30"
            shipping_method := .str "Standard"
            bill_to := { company := .str "Unknown Company"
                         contact := .str "Unknown Contact"
                         address := .str "Unknown Address"
                         phone := .str "", email := .str "" }
            vendor := { company := .str "Unknown Vendor"
                        contact := .str "Unknown Contact"
                        address := .str "Unknown Address"
                        phone := .str "", email := .str "" }
            items := []
            summary := { subtotal := .val 0, discount := .val 0,
                         freight := .val 0, tax := .val 0, total := .val 0 }
            notes := .num 42
            payment_status := .str "Pending" } ∧
    jsTypeofIsString (JSValue.num 42) = false :=
  ⟨rfl, rfl⟩

/-- C1 (amended): for every truthy object input on which the identifier
check succeeds or a truthy PO hint is supplied, and whose upstream `items`
array contains no `null`/`undefined` element (such an element makes the
item mapping throw a `TypeError`), the normalizer returns an invoice in
which every field is defined and non-null: `invoice_id` is a nonempty
string; `invoice_date`, `due_date`, `payment_terms`, `shipping_method`,
`notes` and `payment_status` are non-null, non-undefined values (they are
the upstream values verbatim when those are truthy — of whatever type —
and string defaults otherwise); both contacts have all five fields defined;
`items` is a list (matching the upstream array in length, and empty when
the upstream `items` is not an array) in which every element has all five
fields defined with genuine (non-NaN) numbers for `qty`, `unit_price`,
`total`; and all five summary fields are genuine numbers.  No output field
is ever `undefined` or `null`. -/
theorem c1_normalizer_totality
    (raw : JSValue) (hint : Option String) (now rand : ℕ) (dateStr : ℕ → String)
    (h1 : jsTruthy raw = true) (h2 : jsTypeofIsObject raw = true)
    (h3 : resolveInvoiceId (unwrapResponse raw) ≠ none ∨ hintTruthy hint = true)
    (h4 : normalizeItems (getField (unwrapResponse raw) "items") ≠ none) :
    ∃ inv, validateAndNormalizeInvoiceResponse raw hint now rand dateStr = .ok inv ∧
      inv.invoice_id ≠ "" ∧
      jsDefinedNonNull inv.invoice_date ∧ jsDefinedNonNull inv.due_date ∧
      jsDefinedNonNull inv.payment_terms ∧ jsDefinedNonNull inv.shipping_method ∧
      contactDefined inv.bill_to ∧ contactDefined inv.vendor ∧
      (∀ it ∈ inv.items, itemDefined it) ∧
      (∀ xs, getField (unwrapResponse raw) "items" = .arr xs →
        inv.items.length = xs.length) ∧
      ((∀ xs, getField (unwrapResponse raw) "items" ≠ .arr xs) → inv.items = []) ∧
      inv.summary.subtotal ≠ .nan ∧ inv.summary.discount ≠ .nan ∧
      inv.summary.freight ≠ .nan ∧ inv.summary.tax ≠ .nan ∧
      inv.summary.total ≠ .nan ∧
      jsDefinedNonNull inv.notes ∧ jsDefinedNonNull inv.payment_status := by
  cases hit : normalizeItems (getField (unwrapResponse raw) "items") with
  | none => exact absurd hit h4
  | some items =>
  obtain ⟨hitdef, hitlen, hitempty⟩ := normalizeItems_spec hit
  have main : ∃ idu, validateAndNormalizeInvoiceResponse raw hint now rand dateStr =
      .ok (buildNormInvoice (unwrapResponse raw) idu items now dateStr) ∧
      jsTrim idu ≠ "" := by
    cases hres : resolveInvoiceId (unwrapResponse raw) with
    | some s =>
      exact ⟨s, normalize_eq_ok_resolved hint dateStr h1 h2 hres hit,
        jsTrim_ne_empty_of_resolved hres⟩
    | none =>
      rcases h3 with h3 | h3
      · exact absurd hres h3
      · cases hint with
        | none => exact absurd h3 (by simp [hintTruthy])
        | some po =>
          have hpo : po ≠ "" := by
            simpa [hintTruthy] using h3
          refine ⟨generateFallbackInvoiceId po now rand,
            normalize_eq_ok_fallback dateStr h1 h2 hres hpo hit, ?_⟩
          rw [jsTrim_generateFallbackInvoiceId]
          exact generateFallbackInvoiceId_ne_empty po now rand
  obtain ⟨idu, heq, hid⟩ := main
  obtain ⟨f0, f1, f2, f3, f4, f5, f6, f7, f8, f9, f10, f11, f12, f13, f14⟩ :=
    buildNormInvoice_defined (unwrapResponse raw) idu items now dateStr
  refine ⟨buildNormInvoice (unwrapResponse raw) idu items now dateStr, heq,
    ?_, f1, f2, f3, f4, f5, f6, ?_, ?_, ?_, f8, f9, f10, f11, f12, f13, f14⟩
  · rw [f0]; exact hid
  · rw [f7]; exact hitdef
  · rw [f7]; exact hitlen
  · rw [f7]; exact hitempty

/-- C1 witness: the amended theorem applied to the concrete input
`{invoice_id: "X", items: [{qty: 1}]}` with no hint. -/
theorem c1_totality_witness :
    ∃ inv, validateAndNormalizeInvoiceResponse
        (.obj [("invoice_id", .str "X"), ("items", .arr [.obj [("qty", .num 1)]])])
        none 0 0 (fun _ => "1970-01-01") = .ok inv ∧
      inv.invoice_id ≠ "" ∧
      jsDefinedNonNull inv.invoice_date ∧ jsDefinedNonNull inv.due_date ∧
      jsDefinedNonNull inv.payment_terms ∧ jsDefinedNonNull inv.shipping_method ∧
      contactDefined inv.bill_to ∧ contactDefined inv.vendor ∧
      (∀ it ∈ inv.items, itemDefined it) ∧
      (∀ xs, getField (unwrapResponse (.obj [("invoice_id", .str "X"),
          ("items", .arr [.obj [("qty", .num 1)]])])) "items" = .arr xs →
        inv.items.length = xs.length) ∧
      ((∀ xs, getField (unwrapResponse (.obj [("invoice_id", .str "X"),
          ("items", .arr [.obj [("qty", .num 1)]])])) "items" ≠ .arr xs) →
        inv.items = []) ∧
      inv.summary.subtotal ≠ .nan ∧ inv.summary.discount ≠ .nan ∧
      inv.summary.freight ≠ .nan ∧ inv.summary.tax ≠ .nan ∧
      inv.summary.total ≠ .nan ∧
      jsDefinedNonNull inv.notes ∧ jsDefinedNonNull inv.payment_status :=
  c1_normalizer_totality
    (.obj [("invoice_id", .str "X"), ("items", .arr [.obj [("qty", .num 1)]])])
    none 0 0 (fun _ => "1970-01-01") rfl rfl
    (Or.inl (by intro h; exact Option.noConfusion h)) (by intro h; exact Option.noConfusion h)

/-! ## Claim C2 -/

/-- C2 counterexample: the claim says the first key whose value is a string
that is non-empty after trimming wins, "even when an earlier key in the
order is present with a non-string or whitespace-only value".  On
`{invoice_id: "   ", invoiceId: "ABC"}` (no hint) the claimed resulting
`invoice_id` would be `"ABC"`; the code's `||` chain instead picks the
truthy whitespace-only `"   "`, the trim check fails, and with no hint the
whole normalization fails — no invoice is produced at all. -/
theorem c2_counterexample :
    validateAndNormalizeInvoiceResponse
        (.obj [("invoice_id", .str "   "), ("invoiceId", .str "ABC")]) none 0 0
        (fun _ => "1970-01-01") = .fail :=
  rfl

/-- C2 (amended): the identifier chain takes the **first truthy** value
among `invoice_id`, `invoiceId`, `id`, `invoice_number` in that fixed order
(if all four are falsy, the last value — falsy — results).  The chain's
value is used as the identifier only when it is a string that is non-empty
after trimming, in which case the output `invoice_id` is its trimmed value;
otherwise — even when a later key in the order holds a valid non-empty
string — the fallback/failure path is taken. -/
theorem c2_identifier_resolution :
    (∀ a : JSValue, idChain a =
      (match [getField a "invoice_id", getField a "invoiceId", getField a "id",
          getField a "invoice_number"].find? jsTruthy with
        | some v => v
        | none => getField a "invoice_number")) ∧
    (∀ (a : JSValue) (s : String),
      resolveInvoiceId a = some s ↔ idChain a = .str s ∧ jsTrim s ≠ "") ∧
    (∀ (raw : JSValue) (hint : Option String) (now rand : ℕ)
        (dateStr : ℕ → String) (s : String),
      jsTruthy raw = true → jsTypeofIsObject raw = true →
      normalizeItems (getField (unwrapResponse raw) "items") ≠ none →
      resolveInvoiceId (unwrapResponse raw) = some s →
      ∃ inv, validateAndNormalizeInvoiceResponse raw hint now rand dateStr = .ok inv ∧
        inv.invoice_id = jsTrim s) := by
  refine ⟨?_, ?_, ?_⟩
  · intro a
    unfold idChain jsOr
    by_cases h1 : jsTruthy (getField a "invoice_id") <;>
      by_cases h2 : jsTruthy (getField a "invoiceId") <;>
        by_cases h3 : jsTruthy (getField a "id") <;>
          by_cases h4 : jsTruthy (getField a "invoice_number") <;>
            simp [List.find?, h1, h2, h3, h4]
  · intro a s
    constructor
    · exact resolveInvoiceId_spec
    · rintro ⟨hc, ht⟩
      unfold resolveInvoiceId
      rw [hc]
      simp only [ht, if_false]
  · intro raw hint now rand dateStr s hobj htype hitems hres
    cases hit : normalizeItems (getField (unwrapResponse raw) "items") with
    | none => exact absurd hit hitems
    | some items =>
      exact ⟨buildNormInvoice (unwrapResponse raw) s items now dateStr,
        normalize_eq_ok_resolved hint dateStr hobj htype hres hit, rfl⟩

/-- C2 witness: the amended theorem's resolution part applied to
`{invoice_id: 0, invoiceId: " ABC "}`: the first key is falsy, so the
second (truthy, a string with non-empty trim) wins and the output id is its
trimmed value. -/
theorem c2_resolution_witness :
    ∃ inv, validateAndNormalizeInvoiceResponse
        (.obj [("invoice_id", .num 0), ("invoiceId", .str " ABC ")]) none 0 0
        (fun _ => "1970-01-01") = .ok inv ∧
      inv.invoice_id = jsTrim " ABC " :=
  c2_identifier_resolution.2.2
    (.obj [("invoice_id", .num 0), ("invoiceId", .str " ABC ")]) none 0 0
    (fun _ => "1970-01-01") " ABC "
    rfl rfl (by intro h; exact Option.noConfusion h) (by decide)

/-! ## Claim C3 -/

/-- C3 counterexample: the claim says that with no usable identifier key
and a non-empty PO hint, "normalization succeeds".  On
`{items: [null]}` with hint `"PO-9"` the item mapping throws a `TypeError`
(`null.description`), so normalization neither succeeds nor returns null —
it throws. -/
theorem c3_counterexample :
    validateAndNormalizeInvoiceResponse (.obj [("items", .arr [.null])])
        (some "PO-9") 0 0 (fun _ => "1970-01-01") = .throws :=
  rfl

/-- C3 (amended): when the identifier check fails, a truthy PO hint makes
normalization succeed — provided the upstream `items` array contains no
`null`/`undefined` element (such an element throws) — and the output id is
exactly the synthesized
`INV-{po}-{decimal digits of Date.now()}-{3-char zero-padded random}`
string (all of whose timestamp characters are digits, and whose random part
has exactly 3 digit characters when the random draw is below 1000); with a
falsy hint the normalization returns null; and returning null happens
exactly on non-truthy-object input or unresolvable-identifier-with-falsy-
hint — every other missing field degrades to a default. -/
theorem c3_identifier_fallback :
    (∀ (raw : JSValue) (po : String) (now rand : ℕ) (dateStr : ℕ → String),
      jsTruthy raw = true → jsTypeofIsObject raw = true →
      resolveInvoiceId (unwrapResponse raw) = none → po ≠ "" →
      normalizeItems (getField (unwrapResponse raw) "items") ≠ none →
      ∃ inv, validateAndNormalizeInvoiceResponse raw (some po) now rand dateStr =
          .ok inv ∧
        inv.invoice_id = generateFallbackInvoiceId po now rand ∧
        inv.invoice_id =
          "INV-" ++ po ++ "-" ++ Nat.repr now ++ "-" ++ padStart3 (Nat.repr rand) ∧
        (∀ c ∈ (Nat.repr now).data, c.isDigit = true) ∧
        (∀ c ∈ (padStart3 (Nat.repr rand)).data, c.isDigit = true) ∧
        (rand < 1000 → (padStart3 (Nat.repr rand)).length = 3)) ∧
    (∀ (raw : JSValue) (hint : Option String) (now rand : ℕ) (dateStr : ℕ → String),
      validateAndNormalizeInvoiceResponse raw hint now rand dateStr = .fail ↔
        (jsTruthy raw = false ∨ jsTypeofIsObject raw = false) ∨
        (resolveInvoiceId (unwrapResponse raw) = none ∧ hintTruthy hint = false)) := by
  constructor
  · intro raw po now rand dateStr hobj htype hres hpo hitems
    cases hit : normalizeItems (getField (unwrapResponse raw) "items") with
    | none => exact absurd hit hitems
    | some items =>
      refine ⟨buildNormInvoice (unwrapResponse raw)
          (generateFallbackInvoiceId po now rand) items now dateStr,
        normalize_eq_ok_fallback dateStr hobj htype hres hpo hit, ?_, ?_, ?_, ?_, ?_⟩
      · show jsTrim (generateFallbackInvoiceId po now rand) =
          generateFallbackInvoiceId po now rand
        exact jsTrim_generateFallbackInvoiceId po now rand
      · show jsTrim (generateFallbackInvoiceId po now rand) =
          "INV-" ++ po ++ "-" ++ Nat.repr now ++ "-" ++ padStart3 (Nat.repr rand)
        rw [jsTrim_generateFallbackInvoiceId]
        rfl
      · exact repr_data_digits now
      · exact padStart3_digits (repr_data_digits rand)
      · intro hrand
        exact padStart3_length (repr_length_le_three hrand)
  · exact normalize_eq_fail_iff

/-- C3 witness: the fallback part applied to the empty object with hint
`"PO-9"`, `now = 12345`, `rand = 7`, and the null-return part applied via
the equivalence at a concrete non-object input. -/
theorem c3_fallback_witness :
    (∃ inv, validateAndNormalizeInvoiceResponse (.obj []) (some "PO-9") 12345 7
        (fun _ => "1970-01-01") = .ok inv ∧
      inv.invoice_id = generateFallbackInvoiceId "PO-9" 12345 7 ∧
      inv.invoice_id =
        "INV-" ++ "PO-9" ++ "-" ++ Nat.repr 12345 ++ "-" ++ padStart3 (Nat.repr 7) ∧
      (∀ c ∈ (Nat.repr 12345).data, c.isDigit = true) ∧
      (∀ c ∈ (padStart3 (Nat.repr 7)).data, c.isDigit = true) ∧
      (7 < 1000 → (padStart3 (Nat.repr 7)).length = 3)) ∧
    validateAndNormalizeInvoiceResponse (.str "nope") none 0 0
      (fun _ => "1970-01-01") = .fail :=
  ⟨c3_identifier_fallback.1 (.obj []) "PO-9" 12345 7 (fun _ => "1970-01-01")
      rfl rfl rfl (by decide) (by intro h; exact Option.noConfusion h),
   (c3_identifier_fallback.2 (.str "nope") none 0 0 (fun _ => "1970-01-01")).mpr
      (Or.inr ⟨rfl, rfl⟩)⟩

/-! ## Claims C7 and C9 -/

theorem jsNum_truthy_val {q : ℚ} (h : q ≠ 0) : (JSNum.val q).truthy = true := by
  simp [JSNum.truthy, h]

theorem numOr_of_truthy {a : JSNum} (b : JSNum) (h : a.truthy = true) :
    numOr a b = a := by
  unfold numOr
  rw [if_pos h]

theorem normalizeItem_eq_build {idx : ℕ} {item : JSValue}
    (h1 : item ≠ .null) (h2 : item ≠ JSValue.undef) :
    normalizeItem idx item = some {
      description := jsOr (getField item "description")
        (.str ("Item " ++ Nat.repr (idx + 1)))
      qty := numOr (jsToNumber (getField item "qty")) (.val 1)
      unit := jsOr (getField item "unit") (.str "Each")
      unit_price := numOr (jsToNumber (getField item "unit_price"))
        (numOr (jsToNumber (getField item "unitPrice")) (.val 0))
      total := numOr (jsToNumber (getField item "total")) (.val 0) } := by
  cases item <;> first | exact absurd rfl h1 | exact absurd rfl h2 | rfl

/-- C7: per-item numeric coercion.  (a) `{qty:"3", unit_price:"10.5"}`
coerces to `qty = 3` and `unit_price = 10.5`; (b) a qty whose `Number`
coercion is NaN (non-numeric string, or missing — `Number(undefined)` is
NaN) defaults to 1, not 0; (c) a unit price is tried at `unit_price` then
`unitPrice` (witnessed by `{unit_price:"x", unitPrice:7}` giving 7), and
when both coerce to NaN it defaults to 0; (d) the item total is taken from
the response's `total` field only — it defaults to 0 when that field's
coercion is NaN (in particular when absent) and is never recomputed as
qty × unit price, witnessed by `{qty:2, unit_price:5}` (no `total`) giving
`total = 0`, not 10. -/
theorem c7_item_numeric_coercion :
    ((normalizeItem 0 (.obj [("qty", .str "3"), ("unit_price", .str "10.5")])).map
        NormItem.qty = some (.val 3) ∧
     (normalizeItem 0 (.obj [("qty", .str "3"), ("unit_price", .str "10.5")])).map
        NormItem.unit_price = some (.val (10.5 : ℚ))) ∧
    (∀ (idx : ℕ) (item : JSValue), item ≠ .null → item ≠ JSValue.undef →
      jsToNumber (getField item "qty") = .nan →
      (normalizeItem idx item).map NormItem.qty = some (.val 1)) ∧
    (∀ (idx : ℕ) (item : JSValue), item ≠ .null → item ≠ JSValue.undef →
      jsToNumber (getField item "unit_price") = .nan →
      jsToNumber (getField item "unitPrice") = .nan →
      (normalizeItem idx item).map NormItem.unit_price = some (.val 0)) ∧
    ((normalizeItem 0 (.obj [("unit_price", .str "x"), ("unitPrice", .num 7)])).map
        NormItem.unit_price = some (.val 7)) ∧
    (∀ (idx : ℕ) (item : JSValue), item ≠ .null → item ≠ JSValue.undef →
      jsToNumber (getField item "total") = .nan →
      (normalizeItem idx item).map NormItem.total = some (.val 0)) ∧
    ((normalizeItem 0 (.obj [("qty", .num 2), ("unit_price", .num 5)])).map
        NormItem.qty = some (.val 2) ∧
     (normalizeItem 0 (.obj [("qty", .num 2), ("unit_price", .num 5)])).map
        NormItem.unit_price = some (.val 5) ∧
     (normalizeItem 0 (.obj [("qty", .num 2), ("unit_price", .num 5)])).map
        NormItem.total = some (.val 0)) := by
  refine ⟨⟨rfl, ?_⟩, ?_, ?_, rfl, ?_, rfl, rfl, rfl⟩
  · have h1 : jsToNumber (getField
        (.obj [("qty", .str "3"), ("unit_price", .str "10.5")]) "unit_price") =
        .val (((10 : ℕ) : ℚ) + ((5 : ℕ) : ℚ) / (10 : ℚ) ^ (1 : ℕ)) := rfl
    have hval : (((10 : ℕ) : ℚ) + ((5 : ℕ) : ℚ) / (10 : ℚ) ^ (1 : ℕ)) =
        (10.5 : ℚ) := by norm_num
    show some (numOr (jsToNumber (getField
        (.obj [("qty", .str "3"), ("unit_price", .str "10.5")]) "unit_price"))
      (numOr (jsToNumber (getField
        (.obj [("qty", .str "3"), ("unit_price", .str "10.5")]) "unitPrice"))
        (.val 0))) = some (.val (10.5 : ℚ))
    rw [h1, hval, numOr_of_truthy _ (jsNum_truthy_val (by norm_num))]
  · intro idx item h1 h2 hnan
    rw [normalizeItem_eq_build h1 h2]
    show some (numOr (jsToNumber (getField item "qty")) (.val 1)) = some (.val 1)
    rw [hnan]
    rfl
  · intro idx item h1 h2 hnan1 hnan2
    rw [normalizeItem_eq_build h1 h2]
    show some (numOr (jsToNumber (getField item "unit_price"))
      (numOr (jsToNumber (getField item "unitPrice")) (.val 0))) = some (.val 0)
    rw [hnan1, hnan2]
    rfl
  · intro idx item h1 h2 hnan
    rw [normalizeItem_eq_build h1 h2]
    show some (numOr (jsToNumber (getField item "total")) (.val 0)) = some (.val 0)
    rw [hnan]
    rfl

/-- C7 witness: the three universally quantified defaults applied at
concrete items — `{qty:"abc"}` gives qty 1; `{}` gives unit price 0;
`{qty:2}` gives total 0. -/
theorem c7_coercion_witness :
    (normalizeItem 0 (.obj [("qty", .str "abc")])).map NormItem.qty =
        some (.val 1) ∧
    (normalizeItem 0 (.obj [])).map NormItem.unit_price = some (.val 0) ∧
    (normalizeItem 0 (.obj [("qty", .num 2)])).map NormItem.total =
        some (.val 0) :=
  ⟨c7_item_numeric_coercion.2.1 0 (.obj [("qty", .str "abc")])
      (by intro h; exact JSValue.noConfusion h)
      (by intro h; exact JSValue.noConfusion h) rfl,
   c7_item_numeric_coercion.2.2.1 0 (.obj [])
      (by intro h; exact JSValue.noConfusion h)
      (by intro h; exact JSValue.noConfusion h) rfl rfl,
   c7_item_numeric_coercion.2.2.2.2.1 0 (.obj [("qty", .num 2)])
      (by intro h; exact JSValue.noConfusion h)
      (by intro h; exact JSValue.noConfusion h) rfl⟩

/-- C9: a line item whose `qty` field is the number 0 or the string `"0"`
normalizes to `qty = 1`: `Number(item.qty)` yields the falsy 0, so
`Number(item.qty) || 1` falls through to the default 1, exactly as for a
missing or non-numeric qty — a legitimate zero quantity is silently
replaced by 1. -/
theorem c9_zero_qty_becomes_one :
    ∀ (idx : ℕ) (item : JSValue),
      (getField item "qty" = .num 0 ∨ getField item "qty" = .str "0") →
      (normalizeItem idx item).map NormItem.qty = some (.val 1) := by
  intro idx item hq
  have hobj : item ≠ .null ∧ item ≠ JSValue.undef := by
    constructor <;> intro he <;> subst he <;> rcases hq with hq | hq <;>
      exact JSValue.noConfusion hq
  rw [normalizeItem_eq_build hobj.1 hobj.2]
  show some (numOr (jsToNumber (getField item "qty")) (.val 1)) = some (.val 1)
  rcases hq with hq | hq <;> (rw [hq]; rfl)

/-- C9 witness: the theorem applied at `{qty: 0}` and `{qty: "0"}`. -/
theorem c9_zero_qty_witness :
    (normalizeItem 0 (.obj [("qty", .num 0)])).map NormItem.qty =
        some (.val 1) ∧
    (normalizeItem 3 (.obj [("qty", .str "0")])).map NormItem.qty =
        some (.val 1) :=
  ⟨c9_zero_qty_becomes_one 0 (.obj [("qty", .num 0)]) (Or.inl rfl),
   c9_zero_qty_becomes_one 3 (.obj [("qty", .str "0")]) (Or.inr rfl)⟩

/-! ## Error aggregator (`InvoiceErrorHandler.logError`,
invoice-error-handler.ts 20-36) -/

structure InvoiceError where
  code : String
  message : String
  details : Option JSValue
  timestamp : String
  poNumber : Option String

/-- `Partial<InvoiceError>` as `logError` consumes it. -/
structure PartialInvoiceError where
  code : Option String
  message : Option String
  details : Option JSValue
  poNumber : Option String

/-- `o || d` on an optional string: the string when present and nonempty
(truthy), else the default. -/
def strOrDefault (o : Option String) (d : String) : String :=
  match o with
  | some s => if s = "" then d else s
  | none => d

/-- Lines 21-27: fill the defaults (`ts` models
`new Date().toISOString()`). -/
def fillError (e : PartialInvoiceError) (ts : String) : InvoiceError :=
  { code := strOrDefault e.code "UNKNOWN_ERROR"
    message := strOrDefault e.message "An unknown error occurred"
    details := e.details
    timestamp := ts
    poNumber := e.poNumber }

/-- `logError` (lines 20-36): push the filled record, then keep only the
last 50 when the buffer exceeds 50 (`slice(-50)`). -/
def logError (e : PartialInvoiceError) (ts : String)
    (errors : List InvoiceError) : List InvoiceError :=
  let errors' := errors ++ [fillError e ts]
  if errors'.length > 50 then errors'.drop (errors'.length - 50) else errors'

/-- A sequence of `logError` calls (each with its own timestamp). -/
def logErrors (es : List (PartialInvoiceError × String))
    (errors : List InvoiceError) : List InvoiceError :=
  es.foldl (fun buf pe => logError pe.1 pe.2 buf) errors

theorem logError_length {buf : List InvoiceError} (e : PartialInvoiceError)
    (ts : String) (_h : buf.length ≤ 50) : (logError e ts buf).length ≤ 50 := by
  unfold logError
  by_cases hgt : (buf ++ [fillError e ts]).length > 50
  · rw [if_pos hgt, List.length_drop]
    omega
  · rw [if_neg hgt]
    omega

theorem logErrors_eq_drop (es : List (PartialInvoiceError × String)) :
    logErrors es [] =
      (es.map (fun pe => fillError pe.1 pe.2)).drop (es.length - 50) := by
  induction es using List.reverseRecOn with
  | nil => rfl
  | append_singleton xs x ih =>
    have hstep : logErrors (xs ++ [x]) [] = logError x.1 x.2 (logErrors xs []) := by
      unfold logErrors
      rw [List.foldl_append]
      rfl
    rw [hstep, ih]
    set M := xs.map (fun pe => fillError pe.1 pe.2) with hM
    have hMlen : M.length = xs.length := by
      rw [hM, List.length_map]
    rw [List.map_append, List.length_append]
    simp only [List.map_cons, List.map_nil, List.length_singleton]
    unfold logError
    have hdroplen : (M.drop (xs.length - 50)).length = xs.length - (xs.length - 50) := by
      rw [List.length_drop, hMlen]
    by_cases hn : xs.length < 50
    · have h0 : xs.length - 50 = 0 := by omega
      have h0' : xs.length + 1 - 50 = 0 := by omega
      rw [h0, h0']
      simp only [List.drop_zero]
      have hlen : (M ++ [fillError x.1 x.2]).length = xs.length + 1 := by
        rw [List.length_append, hMlen, List.length_singleton]
      rw [if_neg (by omega)]
    · have hge : 50 ≤ xs.length := by omega
      have hlen : (M.drop (xs.length - 50) ++ [fillError x.1 x.2]).length = 51 := by
        rw [List.length_append, hdroplen, List.length_singleton]
        omega
      rw [if_pos (by omega), hlen]
      have h1 : (51 : ℕ) - 50 = 1 := by norm_num
      rw [h1]
      have hd1 : (M.drop (xs.length - 50) ++ [fillError x.1 x.2]).drop 1 =
          M.drop (xs.length - 50 + 1) ++ [fillError x.1 x.2] := by
        rw [List.drop_append_of_le_length (by rw [hdroplen]; omega),
          List.drop_drop]
      rw [hd1]
      have h2 : xs.length - 50 + 1 = xs.length + 1 - 50 := by omega
      rw [h2]
      rw [List.drop_append_of_le_length (by rw [hMlen]; omega)]

/-- C5: `logError` always appends a record with the defaults filled in
(`code = "UNKNOWN_ERROR"`, default message, the given log-time timestamp,
when the partial omits them); after any call on a buffer within the bound
the buffer holds at most 50 records; and logging any 60 errors from an
empty buffer leaves exactly the 50 most recent filled records in insertion
order — the oldest 10 evicted. -/
theorem c5_error_buffer_bound :
    (∀ (ts : String) (d : Option JSValue) (p : Option String),
      fillError ⟨none, none, d, p⟩ ts =
        ⟨"UNKNOWN_ERROR", "An unknown error occurred", d, ts, p⟩) ∧
    (∀ (e : PartialInvoiceError) (ts : String) (buf : List InvoiceError),
      buf.length ≤ 50 → (logError e ts buf).length ≤ 50) ∧
    (∀ (buf : List InvoiceError) (e : PartialInvoiceError) (ts : String),
      buf.length ≤ 49 → logError e ts buf = buf ++ [fillError e ts]) ∧
    (∀ es : List (PartialInvoiceError × String), es.length = 60 →
      logErrors es [] = (es.map (fun pe => fillError pe.1 pe.2)).drop 10 ∧
      (logErrors es []).length = 50) := by
  refine ⟨fun ts d p => rfl, fun e ts buf h => logError_length e ts h, ?_, ?_⟩
  · intro buf e ts h
    unfold logError
    rw [if_neg (by
      rw [List.length_append, List.length_singleton]
      omega)]
  · intro es h60
    have hd := logErrors_eq_drop es
    rw [h60] at hd
    refine ⟨hd, ?_⟩
    rw [hd, List.length_drop, List.length_map, h60]

/-- C5 witness: logging a concrete codeless error appends the default-filled
record, and a concrete run of 60 logs keeps the last 50. -/
theorem c5_error_buffer_witness :
    logError ⟨none, none, none, none⟩ "T0" [] =
      [⟨"UNKNOWN_ERROR", "An unknown error occurred", none, "T0", none⟩] ∧
    (logErrors ((List.range 60).map
        (fun i => (⟨some (Nat.repr i), none, none, none⟩, "T"))) []).length = 50 :=
  ⟨by
    have h := c5_error_buffer_bound.2.2.1 [] ⟨none, none, none, none⟩ "T0"
      (by simp)
    rw [h, c5_error_buffer_bound.1 "T0" none none]
    rfl,
   (c5_error_buffer_bound.2.2.2 ((List.range 60).map
      (fun i => (⟨some (Nat.repr i), none, none, none⟩, "T")))
      (by rw [List.length_map, List.length_range])).2⟩

/-! ## Reminder activity tracker (reminder-activity-tracker.ts)

`localStorage` is modelled as an association list of entry key to parsed
activity record (keys are unique in real `localStorage`; the theorems take
that as a hypothesis).  Timestamps are epoch milliseconds as integers: the
code stores `new Date().toISOString()` and reads it back through
`new Date(ts).getTime()`, an exact round trip.  `JSON` (de)serialization of
the record is the identity in the model. -/

inductive ReminderStatus where
  | sent
  | failed
deriving DecidableEq

structure ReminderActivity where
  timestamp : ℤ
  status : ReminderStatus
  message : String
deriving DecidableEq

/-- The per-PO storage key scheme. -/
def activityKey (po : String) : String := "reminder_activity_" ++ po

abbrev ActivityStore := List (String × ReminderActivity)

/-- `localStorage.getItem` (plus parse): first binding of the key. -/
def storeGet : ActivityStore → String → Option ReminderActivity
  | [], _ => none
  | (k', v) :: rest, k => if k' = k then some v else storeGet rest k

/-- `localStorage.setItem`: overwrite in place, else append. -/
def storeSet (k : String) (v : ReminderActivity) : ActivityStore → ActivityStore
  | [] => [(k, v)]
  | (k', v') :: rest =>
    if k' = k then (k, v) :: rest else (k', v') :: storeSet k v rest

/-- `localStorage.removeItem`. -/
def storeRemove (k : String) (st : ActivityStore) : ActivityStore :=
  st.filter (fun p => p.1 != k)

/-- The `cleanupOldReminderActivity` loop (lines 30-49): iterate by index
`i` over `localStorage`, removing every prefixed key whose record is older
than one hour.  Removing while iterating shifts later entries down while
`i` still advances, exactly as in the source (entries after a removed one
can be skipped — the loop makes no attempt to compensate).  The recursion
is driven by an explicit fuel so that the definition is structural (and
computes); each iteration strictly decreases `st.length - i`, so the
initial fuel `st.length` is never exhausted — `cleanupLoop_fuel_irrelevant`
below proves the result does not depend on the fuel once it is at least
`st.length - i`. -/
def cleanupLoop (now : ℤ) : ℕ → ℕ → ActivityStore → ActivityStore
  | 0, _, st => st
  | fuel + 1, i, st =>
    if h : i < st.length then
      let kv := st.get ⟨i, h⟩
      if kv.1.startsWith "reminder_activity_" ∧ kv.2.timestamp < now - 3600000 then
        cleanupLoop now fuel (i + 1) (storeRemove kv.1 st)
      else
        cleanupLoop now fuel (i + 1) st
    else st

/-- `cleanupOldReminderActivity()` (lines 30-49). -/
def cleanupOldReminderActivity (now : ℤ) (st : ActivityStore) : ActivityStore :=
  cleanupLoop now st.length 0 st

theorem storeRemove_length_lt {st : ActivityStore} {i : ℕ} (h : i < st.length) :
    (storeRemove (st.get ⟨i, h⟩).1 st).length < st.length := by
  unfold storeRemove
  apply List.length_filter_lt_length_iff_exists.mpr
  exact ⟨st.get ⟨i, h⟩, st.get_mem _ _, by simp⟩

theorem cleanupLoop_fuel_irrelevant (now : ℤ) :
    ∀ (f1 f2 i : ℕ) (st : ActivityStore),
      st.length - i ≤ f1 → st.length - i ≤ f2 →
      cleanupLoop now f1 i st = cleanupLoop now f2 i st := by
  intro f1
  induction f1 with
  | zero =>
    intro f2 i st h1 h2
    have hi : ¬ i < st.length := by omega
    cases f2 with
    | zero => rfl
    | succ f2' =>
      show st = cleanupLoop now (f2' + 1) i st
      rw [cleanupLoop, dif_neg hi]
  | succ f1' ih =>
    intro f2 i st h1 h2
    by_cases hi : i < st.length
    · cases f2 with
      | zero => omega
      | succ f2' =>
        rw [cleanupLoop, cleanupLoop, dif_pos hi, dif_pos hi]
        by_cases hcond : (st.get ⟨i, hi⟩).1.startsWith "reminder_activity_" = true ∧
            (st.get ⟨i, hi⟩).2.timestamp < now - 3600000
        · rw [if_pos hcond, if_pos hcond]
          have hlt := storeRemove_length_lt hi
          exact ih f2' (i + 1) _ (by omega) (by omega)
        · rw [if_neg hcond, if_neg hcond]
          exact ih f2' (i + 1) st (by omega) (by omega)
    · cases f2 with
      | zero =>
        show cleanupLoop now (f1' + 1) i st = st
        rw [cleanupLoop, dif_neg hi]
      | succ f2' =>
        rw [cleanupLoop, cleanupLoop, dif_neg hi, dif_neg hi]

/-- `trackReminderActivity(poNumber, status, message)` (lines 10-25):
write the record under the PO's key, then sweep. -/
def trackReminderActivity (po : String) (status : ReminderStatus)
    (message : String) (now : ℤ) (st : ActivityStore) : ActivityStore :=
  cleanupOldReminderActivity now (storeSet (activityKey po) ⟨now, status, message⟩ st)

/-- `getRecentReminderActivity(poNumber)` (lines 54-70): return the stored
record only when its timestamp is strictly within the last hour. -/
def getRecentReminderActivity (po : String) (now : ℤ)
    (st : ActivityStore) : Option ReminderActivity :=
  match storeGet st (activityKey po) with
  | some a => if a.timestamp > now - 3600000 then some a else none
  | none => none

theorem storeGet_storeSet (k : String) (v : ReminderActivity) :
    ∀ st : ActivityStore, storeGet (storeSet k v st) k = some v := by
  intro st
  induction st with
  | nil => simp [storeSet, storeGet]
  | cons kv rest ih =>
    obtain ⟨k', v'⟩ := kv
    by_cases hk : k' = k
    · simp [storeSet, hk, storeGet]
    · simp [storeSet, hk, storeGet, ih]

theorem mem_keys_storeSet (k : String) (v : ReminderActivity) :
    ∀ (st : ActivityStore) (x : String),
      x ∈ (storeSet k v st).map Prod.fst → x ∈ st.map Prod.fst ∨ x = k := by
  intro st
  induction st with
  | nil =>
    intro x hx
    simp [storeSet] at hx
    exact Or.inr hx
  | cons kv rest ih =>
    obtain ⟨k', v'⟩ := kv
    intro x hx
    by_cases hk : k' = k
    · simp [storeSet, hk] at hx
      rcases hx with hx | hx
      · exact Or.inr hx
      · exact Or.inl (by simp [hx])
    · simp [storeSet, hk] at hx
      rcases hx with hx | hx
      · exact Or.inl (by simp [hx])
      · rcases ih x (by simpa using hx) with h1 | h1
        · exact Or.inl (by simp; right; simpa using h1)
        · exact Or.inr h1

theorem nodup_keys_storeSet (k : String) (v : ReminderActivity) :
    ∀ st : ActivityStore, (st.map Prod.fst).Nodup →
      ((storeSet k v st).map Prod.fst).Nodup := by
  intro st
  induction st with
  | nil => intro _; simp [storeSet]
  | cons kv rest ih =>
    obtain ⟨k', v'⟩ := kv
    intro hnd
    simp only [List.map_cons, List.nodup_cons] at hnd
    by_cases hk : k' = k
    · subst hk
      have hs : storeSet k' v ((k', v') :: rest) = (k', v) :: rest := by
        simp [storeSet]
      rw [hs]
      simp only [List.map_cons, List.nodup_cons]
      exact hnd
    · simp only [storeSet, if_neg hk, List.map_cons, List.nodup_cons]
      refine ⟨?_, ih hnd.2⟩
      intro hmem
      rcases mem_keys_storeSet k v rest k' hmem with h1 | h1
      · exact hnd.1 h1
      · exact hk h1

theorem nodup_keys_storeRemove (k : String) (st : ActivityStore)
    (h : (st.map Prod.fst).Nodup) : ((storeRemove k st).map Prod.fst).Nodup :=
  List.Nodup.sublist (List.Sublist.map Prod.fst (List.filter_sublist st)) h

theorem storeGet_of_mem_nodup {k : String} {w : ReminderActivity} :
    ∀ st : ActivityStore, (st.map Prod.fst).Nodup → (k, w) ∈ st →
      storeGet st k = some w := by
  intro st
  induction st with
  | nil => intro _ hmem; cases hmem
  | cons kv rest ih =>
    obtain ⟨k', v'⟩ := kv
    intro hnd hmem
    simp only [List.map_cons, List.nodup_cons] at hnd
    rcases List.mem_cons.mp hmem with h1 | h1
    · have ha : k' = k := (congrArg Prod.fst h1).symm
      have hb : v' = w := (congrArg Prod.snd h1).symm
      subst ha
      subst hb
      simp [storeGet]
    · by_cases hk : k' = k
      · subst hk
        exact absurd (by simpa using List.mem_map_of_mem Prod.fst h1) hnd.1
      · simp only [storeGet, if_neg hk]
        exact ih hnd.2 h1

theorem storeGet_storeRemove_ne {kr k : String} (hk : kr ≠ k) :
    ∀ st : ActivityStore, storeGet (storeRemove kr st) k = storeGet st k := by
  intro st
  induction st with
  | nil => rfl
  | cons kv rest ih =>
    obtain ⟨k', v'⟩ := kv
    by_cases h' : k' = kr
    · subst h'
      have hrm : storeRemove k' ((k', v') :: rest) = storeRemove k' rest := by
        simp [storeRemove, List.filter_cons]
      rw [hrm, ih]
      have hne : ¬(k' = k) := fun he => hk (he ▸ rfl)
      simp [storeGet, hne]
    · have hrm : storeRemove kr ((k', v') :: rest) = (k', v') :: storeRemove kr rest := by
        simp [storeRemove, List.filter_cons, h']
      rw [hrm]
      by_cases hkk : k' = k
      · simp [storeGet, hkk]
      · simp [storeGet, hkk, ih]

theorem storeGet_cleanupLoop {k : String} {v : ReminderActivity} (now : ℤ) :
    ∀ (fuel i : ℕ) (st : ActivityStore),
      (st.map Prod.fst).Nodup → storeGet st k = some v →
      ¬(v.timestamp < now - 3600000) →
      storeGet (cleanupLoop now fuel i st) k = some v := by
  intro fuel
  induction fuel with
  | zero => intro i st _ hget _; exact hget
  | succ f ih =>
    intro i st hnd hget hfresh
    by_cases hi : i < st.length
    · rw [cleanupLoop, dif_pos hi]
      by_cases hcond : (st.get ⟨i, hi⟩).1.startsWith "reminder_activity_" = true ∧
          (st.get ⟨i, hi⟩).2.timestamp < now - 3600000
      · rw [if_pos hcond]
        have hkr : (st.get ⟨i, hi⟩).1 ≠ k := by
          intro heq
          have hmem : ((st.get ⟨i, hi⟩).1, (st.get ⟨i, hi⟩).2) ∈ st :=
            st.get_mem i hi
          rw [heq] at hmem
          have hh := storeGet_of_mem_nodup st hnd hmem
          rw [hget] at hh
          have hv : (st.get ⟨i, hi⟩).2 = v := by
            injection hh.symm
          rw [hv] at hcond
          exact hfresh hcond.2
        exact ih (i + 1) _ (nodup_keys_storeRemove _ _ hnd)
          (by rw [storeGet_storeRemove_ne hkr st]; exact hget) hfresh
      · rw [if_neg hcond]
        exact ih (i + 1) st hnd hget hfresh
    · rw [cleanupLoop, dif_neg hi]
      exact hget

theorem getRecent_of_storeGet {po : String} {now : ℤ} {st : ActivityStore}
    {a : ReminderActivity} (h : storeGet st (activityKey po) = some a) :
    getRecentReminderActivity po now st =
      if a.timestamp > now - 3600000 then some a else none := by
  unfold getRecentReminderActivity
  rw [h]

/-- C6: a reminder activity record written at time `writeT` (the write also
runs the eviction sweep) is returned by `getRecentReminderActivity` at every
read strictly within one hour after the write, and `none` is returned at
every read one hour or more after the write even though the record is still
physically present in the store — the read side re-checks the one-hour
window independently of the write-time sweep.  (`localStorage` keys are
unique, hence the `Nodup` hypothesis on the initial store.) -/
theorem c6_activity_cache_expiry
    (st : ActivityStore) (po : String) (status : ReminderStatus) (msg : String)
    (writeT readT : ℤ) (hnd : (st.map Prod.fst).Nodup) :
    (writeT ≤ readT → readT - writeT < 3600000 →
      getRecentReminderActivity po readT
          (trackReminderActivity po status msg writeT st) =
        some ⟨writeT, status, msg⟩) ∧
    (writeT + 3600000 ≤ readT →
      storeGet (trackReminderActivity po status msg writeT st) (activityKey po) =
          some ⟨writeT, status, msg⟩ ∧
      getRecentReminderActivity po readT
          (trackReminderActivity po status msg writeT st) = none) := by
  have hin : storeGet (trackReminderActivity po status msg writeT st)
      (activityKey po) = some ⟨writeT, status, msg⟩ := by
    unfold trackReminderActivity cleanupOldReminderActivity
    apply storeGet_cleanupLoop
    · exact nodup_keys_storeSet _ _ st hnd
    · exact storeGet_storeSet _ _ st
    · show ¬((⟨writeT, status, msg⟩ : ReminderActivity).timestamp < writeT - 3600000)
      simp only
      omega
  constructor
  · intro h1 h2
    rw [getRecent_of_storeGet hin]
    rw [if_pos (by show writeT > readT - 3600000; omega)]
  · intro h1
    refine ⟨hin, ?_⟩
    rw [getRecent_of_storeGet hin]
    rw [if_neg (by show ¬writeT > readT - 3600000; omega)]

/-- C6 witness: the theorem applied to the empty store with a write at
epoch millisecond 1000, read once at +30 minutes (returned) and once at
+1 hour (still stored, but `none` is returned). -/
theorem c6_activity_cache_witness :
    getRecentReminderActivity "PO-1" (1000 + 1800000)
        (trackReminderActivity "PO-1" .sent "ok" 1000 []) =
      some ⟨1000, .sent, "ok"⟩ ∧
    (storeGet (trackReminderActivity "PO-1" .sent "ok" 1000 [])
        (activityKey "PO-1") = some ⟨1000, .sent, "ok"⟩ ∧
      getRecentReminderActivity "PO-1" (1000 + 3600000)
        (trackReminderActivity "PO-1" .sent "ok" 1000 []) = none) :=
  ⟨(c6_activity_cache_expiry [] "PO-1" .sent "ok" 1000 (1000 + 1800000)
      (by simp)).1 (by omega) (by omega),
   (c6_activity_cache_expiry [] "PO-1" .sent "ok" 1000 (1000 + 3600000)
      (by simp)).2 (by omega)⟩

/-! ## Invoice dispatch service (send-reminder-service.ts, second file:
`validateInvoiceData`, `getDefaultRecipient`, `mapInvoiceToPayload`,
`sendInvoice`)

The dispatch service is typed against the declared `AIInvoiceResponse`
interface (string contact fields, numeric item/summary fields), embedded
below as plain Lean structures. -/

structure ContactInfo where
  company : String
  contact : String
  address : String
  phone : String
  email : String
deriving DecidableEq

structure InvoiceItem where
  description : String
  qty : ℚ
  unit : String
  unit_price : ℚ
  total : ℚ
deriving DecidableEq

structure InvoiceSummary where
  subtotal : ℚ
  discount : ℚ
  freight : ℚ
  tax : ℚ
  total : ℚ
deriving DecidableEq

/-- The declared `AIInvoiceResponse` interface (types.ts) that the dispatch
service consumes. -/
structure AIInvoiceResponse where
  invoice_id : String
  invoice_date : String
  due_date : String
  payment_terms : String
  shipping_method : String
  bill_to : ContactInfo
  vendor : ContactInfo
  items : List InvoiceItem
  summary : InvoiceSummary
  notes : String
  payment_status : String
deriving DecidableEq

/-- The character class `[^\s@]` of the recipient regex. -/
def emailCharOk (c : Char) : Bool := !(c.isWhitespace || c == '@')

/-- Character at index `i`. -/
def charAt (cs : List Char) (i : ℕ) : Option Char := (cs.drop i).head?

/-- The anchored regex `/^[^\s@]+@[^\s@]+\.[^\s@]+$/` (line 239), by its
decomposition semantics: the string matches iff it splits as
`a ++ "@" ++ b ++ "." ++ c` with `a`, `b`, `c` nonempty and all their
characters in `[^\s@]` (`b` and `c` may contain further dots). -/
def emailRegexTest (s : String) : Bool :=
  let cs := s.data
  let n := cs.length
  (List.range n).any fun i =>
    (List.range n).any fun j =>
      (charAt cs i == some '@') && (charAt cs j == some '.') &&
      decide (1 ≤ i) && decide (i + 2 ≤ j) && decide (j + 2 ≤ n) &&
      (cs.take i).all emailCharOk &&
      ((cs.drop (i + 1)).take (j - i - 1)).all emailCharOk &&
      (cs.drop (j + 1)).all emailCharOk

/-- `typeof invoiceData.summary.total !== "number"` can never fire in the
typed embedding: `total : ℚ` always has JavaScript type `number` (NaN and
the infinities also have `typeof ... === "number"`).  The branch is kept to
mirror the source's check order. -/
def summaryTotalIsNumber (_s : InvoiceSummary) : Bool := true

/-- `validateInvoiceData(invoiceData, recipient)` (lines 233-257). -/
def validateInvoiceData (invoiceData : AIInvoiceResponse)
    (recipient : String) : Option String :=
  if recipient = "" ∨ jsTrim recipient = "" then
    some "Recipient email address is required"
  else if ¬ emailRegexTest (jsTrim recipient) then
    some "Please provide a valid email address"
  else if invoiceData.invoice_id = "" ∨ jsTrim invoiceData.invoice_id = "" then
    some "Invoice ID is missing"
  else if ¬ summaryTotalIsNumber invoiceData.summary then
    some "Invoice total is invalid"
  else if invoiceData.items = [] then
    some "Invoice must contain at least one item"
  else none

/-- `[^a-z0-9]` complement: the characters kept by the company-name
sanitizer. -/
def sanitizeCompanyChar (c : Char) : Bool :=
  ('a' ≤ c && c ≤ 'z') || ('0' ≤ c && c ≤ '9')

/-- `companyName.toLowerCase().replace(/[^a-z0-9]/g, "")` (line 274). -/
def sanitizeCompanyName (s : String) : String :=
  String.mk ((s.data.map Char.toLower).filter sanitizeCompanyChar)

/-- `getDefaultRecipient(invoiceData)` (lines 262-276). -/
def getDefaultRecipient (invoiceData : AIInvoiceResponse) : String :=
  if invoiceData.bill_to.email ≠ "" ∧ jsTrim invoiceData.bill_to.email ≠ "" then
    jsTrim invoiceData.bill_to.email
  else if invoiceData.vendor.email ≠ "" ∧ jsTrim invoiceData.vendor.email ≠ "" then
    jsTrim invoiceData.vendor.email
  else
    sanitizeCompanyName
      (if invoiceData.bill_to.company ≠ "" then invoiceData.bill_to.company
       else if invoiceData.vendor.company ≠ "" then invoiceData.vendor.company
       else "company") ++ "@example.com"

/-- Decimal rendering of a number in a template literal; exact for
integers, and non-integer rationals are rendered as a fraction (a model
simplification — no claim inspects these payload strings). -/
def jsNumToString (q : ℚ) : String :=
  if q.den = 1 then
    (if q.num < 0 then "-" else "") ++ Nat.repr q.num.natAbs
  else
    (if q.num < 0 then "-" else "") ++ Nat.repr q.num.natAbs ++ "/" ++
      Nat.repr q.den

/-- `String.prototype.padStart(2, "0")`. -/
def padStart2 (s : String) : String :=
  if s.length ≥ 2 then s else String.mk (List.replicate (2 - s.length) '0') ++ s

/-- `Number.prototype.toFixed(2)`: round half away from zero at two
decimals on the exact rational (IEEE artifacts abstracted). -/
def jsToFixed2 (q : ℚ) : String :=
  let cents : ℤ := if q < 0 then -⌊-q * 100 + 1 / 2⌋ else ⌊q * 100 + 1 / 2⌋
  (if cents < 0 then "-" else "") ++ Nat.repr (cents.natAbs / 100) ++ "." ++
    padStart2 (Nat.repr (cents.natAbs % 100))

structure SendInvoicePayloadInvoice where
  po_number : String
  bill_to : String
  vendor : String
  total : ℚ
  items : List String
deriving DecidableEq

structure SendInvoicePayload where
  recipient : String
  invoice : SendInvoicePayloadInvoice
deriving DecidableEq

/-- `mapInvoiceToPayload(invoiceData, poNumber, recipient)`
(lines 215-228). -/
def mapInvoiceToPayload (invoiceData : AIInvoiceResponse)
    (poNumber recipient : String) : SendInvoicePayload :=
  { recipient := jsTrim recipient
    invoice := {
      po_number := poNumber
      bill_to := if invoiceData.bill_to.company ≠ "" then
          invoiceData.bill_to.company else "Unknown Company"
      vendor := if invoiceData.vendor.company ≠ "" then
          invoiceData.vendor.company else "Unknown Vendor"
      total := invoiceData.summary.total
      items := invoiceData.items.map (fun item =>
        item.description ++ " (Qty: " ++ jsNumToString item.qty ++
          ", Unit Price: $" ++ jsToFixed2 item.unit_price ++ ")") } }

/-- A caught JavaScript exception: an `Error` with its message, or a thrown
non-`Error` value. -/
structure JSException where
  isError : Bool
  message : String

/-- `null`/`undefined` test (array elements stringify to the empty string
in `Array.prototype.join`). -/
def jsValueIsNullOrUndef : JSValue → Bool
  | .null => true
  | JSValue.undef => true
  | _ => false

/-- JavaScript `String(v)` as used in template literals. -/
def jsToString : JSValue → String
  | .null => "null"
  | JSValue.undef => "undefined"
  | .bool b => if b then "true" else "false"
  | .num q => jsNumToString q
  | .str s => s
  | .arr xs => String.intercalate ","
      (xs.attach.map (fun x =>
        if jsValueIsNullOrUndef x.1 then "" else jsToString x.1))
  | .obj _ => "[object Object]"
decreasing_by
  have := List.sizeOf_lt_of_mem x.2
  simp only [JSValue.arr.sizeOf_spec]
  omega

/-- The shared non-2xx message extraction pattern: start from
`Server responded with {status}`, prefer `body.message || body.error` when
the error body parses as JSON, else prefer the status text. -/
def httpErrorMessage (status : ℕ) (jsonBody : Option JSValue)
    (statusText : String) : String :=
  let dflt := "Server responded with " ++ Nat.repr status
  match jsonBody with
  | some b => jsToString (jsOr (getField b "message")
      (jsOr (getField b "error") (.str dflt)))
  | none => if statusText ≠ "" then statusText else dflt

/-- Outcome of the awaited `fetch`-and-parse of a dispatch call: a thrown
exception, a non-2xx response (with its JSON body when it parses, and its
status text), or a 2xx response with parsed JSON body. -/
inductive SendOutcome where
  | throws (e : JSException)
  | httpError (status : ℕ) (jsonBody : Option JSValue) (statusText : String)
  | ok (body : JSValue)

/-- The environment of one `sendInvoice` call: whether
`NEXT_PUBLIC_API_BASE_URL` is set, and what the network does with the
request payload. -/
structure SendEnv where
  apiBaseSet : Bool
  outcome : SendInvoicePayload → SendOutcome

structure SendInvoiceResult where
  success : Bool
  message : Option JSValue
  error : Option JSValue
  details : Option JSValue

/-- `sendInvoice(invoiceData, poNumber, recipient?)` (lines 281-382). -/
def sendInvoice (invoiceData : AIInvoiceResponse) (poNumber : String)
    (recipient : Option String) (env : SendEnv) : SendInvoiceResult :=
  if !env.apiBaseSet then
    { success := false, message := none,
      error := some (.str "API configuration error: Base URL not set"),
      details := none }
  else
    let finalRecipient :=
      match recipient with
      | some r => if r ≠ "" then r else getDefaultRecipient invoiceData
      | none => getDefaultRecipient invoiceData
    match validateInvoiceData invoiceData finalRecipient with
    | some err =>
      { success := false, message := none, error := some (.str err),
        details := none }
    | none =>
      match env.outcome (mapInvoiceToPayload invoiceData poNumber finalRecipient) with
      | .throws e =>
        if e.isError then
          if strIncludes e.message "fetch" then
            { success := false, message := none,
              error := some (.str "Network error: Unable to connect to the server. Please check your connection and try again."),
              details := none }
          else
            { success := false, message := none,
              error := some (.str ("Error sending invoice: " ++ e.message)),
              details := none }
        else
          { success := false, message := none,
            error := some (.str "An unexpected error occurred while sending the invoice"),
            details := none }
      | .httpError status body statusText =>
        { success := false, message := none,
          error := some (.str ("Failed to send invoice: " ++
            httpErrorMessage status body statusText)),
          details := some (.obj [("status", .num status)]) }
      | .ok body =>
        if jsTruthy (getField body "success") then
          { success := true,
            message := some (jsOr (getField body "message")
              (.str "Invoice sent successfully")),
            error := none, details := none }
        else
          { success := false, message := none,
            error := some (jsOr (getField body "message")
              (.str "Unknown error occurred while sending invoice")),
            details := none }

theorem trimChars_of_all_not_ws {cs : List Char}
    (h : ∀ c ∈ cs, jsWs c = false) : trimChars cs = cs := by
  apply trimChars_of_ends
  · intro c hc
    cases cs with
    | nil => exact absurd hc (by simp)
    | cons a t =>
      have ha : a = c := by simpa using hc
      subst ha
      exact h a (List.mem_cons_self a t)
  · intro c hc
    exact h c (List.mem_of_getLast?_eq_some hc)

theorem sanitizeCompanyChar_not_ws {c : Char}
    (h : sanitizeCompanyChar c = true) : jsWs c = false := by
  unfold jsWs
  cases hw : c.isWhitespace
  · rfl
  · exfalso
    simp only [Char.isWhitespace, Bool.or_eq_true, decide_eq_true_eq] at hw
    rcases hw with ((h1 | h1) | h1) | h1 <;>
      (subst h1; exact absurd h (by decide))

theorem sanitized_example_trim (x : String) :
    jsTrim (sanitizeCompanyName x ++ "@example.com") =
      sanitizeCompanyName x ++ "@example.com" ∧
    sanitizeCompanyName x ++ "@example.com" ≠ "" := by
  have hall : ∀ c ∈ (sanitizeCompanyName x ++ "@example.com").data,
      jsWs c = false := by
    intro c hc
    rw [String.data_append] at hc
    rcases List.mem_append.mp hc with h1 | h1
    · have h1' : c ∈ (x.data.map Char.toLower).filter sanitizeCompanyChar := h1
      exact sanitizeCompanyChar_not_ws (List.of_mem_filter h1')
    · have hd : ∀ c ∈ ("@example.com" : String).data, jsWs c = false := by decide
      exact hd c h1
  constructor
  · unfold jsTrim
    rw [trimChars_of_all_not_ws hall]
  · intro he
    have hd := congrArg String.data he
    rw [String.data_append] at hd
    rcases List.append_eq_nil.mp hd with ⟨_, h2⟩
    exact absurd h2 (by decide)

theorem getDefaultRecipient_ne_empty (inv : AIInvoiceResponse) :
    getDefaultRecipient inv ≠ "" ∧ jsTrim (getDefaultRecipient inv) ≠ "" := by
  unfold getDefaultRecipient
  by_cases h1 : inv.bill_to.email ≠ "" ∧ jsTrim inv.bill_to.email ≠ ""
  · rw [if_pos h1]
    exact ⟨h1.2, by rw [jsTrim_idem]; exact h1.2⟩
  · rw [if_neg h1]
    by_cases h2 : inv.vendor.email ≠ "" ∧ jsTrim inv.vendor.email ≠ ""
    · rw [if_pos h2]
      exact ⟨h2.2, by rw [jsTrim_idem]; exact h2.2⟩
    · rw [if_neg h2]
      have hs := sanitized_example_trim
        (if inv.bill_to.company ≠ "" then inv.bill_to.company
         else if inv.vendor.company ≠ "" then inv.vendor.company
         else "company")
      exact ⟨hs.2, by rw [hs.1]; exact hs.2⟩

/-! ## Claim C8 -/

/-- C8: `validateInvoiceData` evaluates its checks in the fixed order
recipient-nonempty → recipient matches the email regex → invoice id
nonempty after trimming → `summary.total` is a number (which, on the typed
`AIInvoiceResponse` interface, always holds — `total : ℚ` carries
JavaScript type `number`) → items nonempty, and returns the first failing
check's message.  In particular an empty recipient fails before any other
check is evaluated, and a valid recipient with an empty items sequence
fails specifically on the items check. -/
theorem c8_validate_invoice_order :
    (∀ (inv : AIInvoiceResponse) (r : String), (r = "" ∨ jsTrim r = "") →
      validateInvoiceData inv r = some "Recipient email address is required") ∧
    (∀ (inv : AIInvoiceResponse) (r : String), ¬(r = "" ∨ jsTrim r = "") →
      emailRegexTest (jsTrim r) = false →
      validateInvoiceData inv r = some "Please provide a valid email address") ∧
    (∀ (inv : AIInvoiceResponse) (r : String), ¬(r = "" ∨ jsTrim r = "") →
      emailRegexTest (jsTrim r) = true →
      (inv.invoice_id = "" ∨ jsTrim inv.invoice_id = "") →
      validateInvoiceData inv r = some "Invoice ID is missing") ∧
    (∀ (inv : AIInvoiceResponse) (r : String), ¬(r = "" ∨ jsTrim r = "") →
      emailRegexTest (jsTrim r) = true →
      ¬(inv.invoice_id = "" ∨ jsTrim inv.invoice_id = "") →
      inv.items = [] →
      validateInvoiceData inv r = some "Invoice must contain at least one item") ∧
    (∀ (inv : AIInvoiceResponse) (r : String), ¬(r = "" ∨ jsTrim r = "") →
      emailRegexTest (jsTrim r) = true →
      ¬(inv.invoice_id = "" ∨ jsTrim inv.invoice_id = "") →
      inv.items ≠ [] →
      validateInvoiceData inv r = none) := by
  refine ⟨?_, ?_, ?_, ?_, ?_⟩
  · intro inv r h
    unfold validateInvoiceData
    rw [if_pos h]
  · intro inv r h1 h2
    unfold validateInvoiceData
    rw [if_neg h1, if_pos (by rw [h2]; exact Bool.false_ne_true)]
  · intro inv r h1 h2 h3
    unfold validateInvoiceData
    rw [if_neg h1, if_neg (by rw [h2]; simp), if_pos h3]
  · intro inv r h1 h2 h3 h4
    unfold validateInvoiceData
    rw [if_neg h1, if_neg (by rw [h2]; simp), if_neg h3,
      if_neg (by simp [summaryTotalIsNumber]), if_pos h4]
  · intro inv r h1 h2 h3 h4
    unfold validateInvoiceData
    rw [if_neg h1, if_neg (by rw [h2]; simp), if_neg h3,
      if_neg (by simp [summaryTotalIsNumber]), if_neg h4]

/-- C8 witness: an empty recipient fails with the recipient message on an
invoice that is also invalid elsewhere (empty id, empty items), and a valid
recipient with empty items fails on the items message. -/
theorem c8_validate_order_witness :
    validateInvoiceData
      ⟨"", "", "", "", "", ⟨"", "", "", "", ""⟩, ⟨"", "", "", "", ""⟩, [],
        ⟨0, 0, 0, 0, 0⟩, "", ""⟩ "" =
      some "Recipient email address is required" ∧
    validateInvoiceData
      ⟨"INV-1", "", "", "", "", ⟨"", "", "", "", ""⟩, ⟨"", "", "", "", ""⟩, [],
        ⟨0, 0, 0, 0, 0⟩, "", ""⟩ "a@b.co" =
      some "Invoice must contain at least one item" :=
  ⟨c8_validate_invoice_order.1
      ⟨"", "", "", "", "", ⟨"", "", "", "", ""⟩, ⟨"", "", "", "", ""⟩, [],
        ⟨0, 0, 0, 0, 0⟩, "", ""⟩ "" (Or.inl rfl),
   c8_validate_invoice_order.2.2.2.1
      ⟨"INV-1", "", "", "", "", ⟨"", "", "", "", ""⟩, ⟨"", "", "", "", ""⟩, [],
        ⟨0, 0, 0, 0, 0⟩, "", ""⟩ "a@b.co" (by decide) (by decide) (by decide) rfl⟩

/-! ## Claim C10 -/

/-- C10: calling `sendInvoice` with the empty string as the recipient
argument behaves identically to omitting it: `recipient ||
getDefaultRecipient(...)` treats the falsy empty string as absent, so the
default recipient is resolved — bill-to email (trimmed) when its trim is
nonempty, else vendor email (trimmed) when its trim is nonempty, else the
lowercased non-alphanumeric-stripped company name at `@example.com` — and
since that default is always nonempty (also after trimming), the
"Recipient email address is required" validation failure is never produced
for such calls. -/
theorem c10_empty_recipient_default
    (inv : AIInvoiceResponse) (po : String) (env : SendEnv) :
    sendInvoice inv po (some "") env = sendInvoice inv po none env ∧
    validateInvoiceData inv (getDefaultRecipient inv) ≠
      some "Recipient email address is required" ∧
    (jsTrim inv.bill_to.email ≠ "" →
      getDefaultRecipient inv = jsTrim inv.bill_to.email) ∧
    (jsTrim inv.bill_to.email = "" → jsTrim inv.vendor.email ≠ "" →
      getDefaultRecipient inv = jsTrim inv.vendor.email) ∧
    (jsTrim inv.bill_to.email = "" → jsTrim inv.vendor.email = "" →
      getDefaultRecipient inv = sanitizeCompanyName
        (if inv.bill_to.company ≠ "" then inv.bill_to.company
         else if inv.vendor.company ≠ "" then inv.vendor.company
         else "company") ++ "@example.com") := by
  refine ⟨rfl, ?_, ?_, ?_, ?_⟩
  · have hne := getDefaultRecipient_ne_empty inv
    unfold validateInvoiceData
    rw [if_neg (by push_neg; exact ⟨hne.1, hne.2⟩)]
    split_ifs <;> decide
  · intro h
    have he : inv.bill_to.email ≠ "" := by
      intro heq
      rw [heq] at h
      exact h rfl
    unfold getDefaultRecipient
    rw [if_pos ⟨he, h⟩]
  · intro h1 h2
    have he : inv.vendor.email ≠ "" := by
      intro heq
      rw [heq] at h2
      exact h2 rfl
    unfold getDefaultRecipient
    rw [if_neg (by intro hc; exact hc.2 h1), if_pos ⟨he, h2⟩]
  · intro h1 h2
    unfold getDefaultRecipient
    rw [if_neg (by intro hc; exact hc.2 h1),
      if_neg (by intro hc; exact hc.2 h2)]

/-- C10 witness: a concrete invoice whose bill-to email is `" a@b.co "`:
`sendInvoice` with the empty-string recipient equals `sendInvoice` with it
omitted, and the resolved default is the trimmed bill-to email. -/
theorem c10_empty_recipient_witness :
    sendInvoice
        ⟨"INV-1", "", "", "", "", ⟨"Acme Corp", "", "", "", " a@b.co "⟩,
          ⟨"Vendor Inc", "", "", "", ""⟩, [⟨"Widget", 1, "Each", 2, 2⟩],
          ⟨2, 0, 0, 0, 2⟩, "", "Pending"⟩ "PO-9" (some "")
        ⟨true, fun _ => .ok (.obj [("success", .bool true)])⟩ =
      sendInvoice
        ⟨"INV-1", "", "", "", "", ⟨"Acme Corp", "", "", "", " a@b.co "⟩,
          ⟨"Vendor Inc", "", "", "", ""⟩, [⟨"Widget", 1, "Each", 2, 2⟩],
          ⟨2, 0, 0, 0, 2⟩, "", "Pending"⟩ "PO-9" none
        ⟨true, fun _ => .ok (.obj [("success", .bool true)])⟩ ∧
    getDefaultRecipient
        ⟨"INV-1", "", "", "", "", ⟨"Acme Corp", "", "", "", " a@b.co "⟩,
          ⟨"Vendor Inc", "", "", "", ""⟩, [⟨"Widget", 1, "Each", 2, 2⟩],
          ⟨2, 0, 0, 0, 2⟩, "", "Pending"⟩ = jsTrim " a@b.co " :=
  ⟨(c10_empty_recipient_default
      ⟨"INV-1", "", "", "", "", ⟨"Acme Corp", "", "", "", " a@b.co "⟩,
        ⟨"Vendor Inc", "", "", "", ""⟩, [⟨"Widget", 1, "Each", 2, 2⟩],
        ⟨2, 0, 0, 0, 2⟩, "", "Pending"⟩ "PO-9"
      ⟨true, fun _ => .ok (.obj [("success", .bool true)])⟩).1,
   (c10_empty_recipient_default
      ⟨"INV-1", "", "", "", "", ⟨"Acme Corp", "", "", "", " a@b.co "⟩,
        ⟨"Vendor Inc", "", "", "", ""⟩, [⟨"Widget", 1, "Each", 2, 2⟩],
        ⟨2, 0, 0, 0, 2⟩, "", "Pending"⟩ "PO-9"
      ⟨true, fun _ => .ok (.obj [("success", .bool true)])⟩).2.2.1 (by decide)⟩

/-! ## Invoice generation orchestrator (`generateAIInvoice`,
ai-invoice-service.ts 214-384) -/

/-- Outcome of the awaited generation `POST /ai/invoice`: a thrown
exception (transport failures included), a non-2xx response, a 2xx whose
body is not JSON (with the raw text), or a 2xx with parsed JSON body. -/
inductive ApiCallOutcome where
  | throws (e : JSException)
  | httpError (status : ℕ) (jsonBody : Option JSValue) (statusText : String)
  | badJson (rawText : String)
  | ok (body : JSValue)

/-- The environment of one `generateAIInvoice` call: configuration,
the parsed 200 body of the existence check `GET /invoices/by-po/{po}`
(`none` for 404, any non-2xx, or any fetch failure — all swallowed to
"not found" inside `getExistingInvoiceFromDatabase`), the generation call's
outcome, and the time/randomness/date-formatting parameters. -/
structure GenEnv where
  apiBaseSet : Bool
  dbInvoice : Option JSValue
  apiCall : ApiCallOutcome
  now : ℕ
  rand : ℕ
  dateStr : ℕ → String

/-- The `rawResponse` diagnostic attachment: raw text (parse failure) or
the parsed body (normalization failure). -/
inductive RawResponse where
  | text (s : String)
  | json (v : JSValue)

structure InvoiceGenerationResult where
  success : Bool
  invoice : Option NormInvoice
  error : Option String
  rawResponse : Option RawResponse
  source : Option String

/-- `getExistingInvoiceFromDatabase(poNumber)` (lines 136-171): `null`
without configuration; otherwise normalize the 200 body — a normalization
failure, or any exception (the try wraps the whole body, including a
`TypeError` thrown by the normalizer), yields `null`. -/
def getExistingInvoiceFromDatabase (po : String) (env : GenEnv) :
    Option NormInvoice :=
  if !env.apiBaseSet then none
  else
    match env.dbInvoice with
    | some body =>
      match validateAndNormalizeInvoiceResponse body (some po) env.now env.rand
          env.dateStr with
      | .ok inv => some inv
      | .fail => none
      | .throws => none
    | none => none

/-- The message of the `TypeError` thrown by the normalizer's item mapping
on a `null`/`undefined` element.  The engine-specific text is abstracted;
what matters is that it does not contain `"fetch"`. -/
def typeErrorMessage : String :=
  "TypeError: Cannot read properties of null or undefined"

/-- The fallback placeholder invoice of lines 336-366, built when the
generation call fails at the transport level. -/
def fallbackInvoice (po : String) (now rand : ℕ)
    (dateStr : ℕ → String) : NormInvoice :=
  { invoice_id := generateFallbackInvoiceId po now rand
    invoice_date := .str (dateStr now)
    due_date := .str (dateStr (now + 30 * 24 * 60 * 60 * 1000))
    payment_terms := .str "Net 30"
    shipping_method := .str "Standard"
    bill_to := ⟨.str "Unknown Company", .str "Unknown Contact",
      .str "Unknown Address", .str "", .str ""⟩
    vendor := ⟨.str "Unknown Vendor", .str "Unknown Contact",
      .str "Unknown Address", .str "", .str ""⟩
    items := []
    summary := ⟨.val 0, .val 0, .val 0, .val 0, .val 0⟩
    notes := .str ("Fallback invoice generated for PO " ++ po ++
      " due to API unavailability. Please update with correct information.")
    payment_status := .str "Pending" }

/-- `generateAIInvoice(poNumber)` (lines 214-384).  The best-effort
`saveInvoiceToDatabase` of step 3 only logs and never changes the result,
so it does not appear in the embedding. -/
def generateAIInvoice (po : String) (env : GenEnv) : InvoiceGenerationResult :=
  if po = "" ∨ jsTrim po = "" then
    ⟨false, none, some "Purchase Order number is required", none, none⟩
  else
    match getExistingInvoiceFromDatabase (jsTrim po) env with
    | some inv => ⟨true, some inv, none, none, some "database"⟩
    | none =>
      if !env.apiBaseSet then
        ⟨false, none, some "API configuration error: Base URL not set", none, none⟩
      else
        match env.apiCall with
        | .httpError status body statusText =>
          ⟨false, none, some ("Failed to generate invoice: " ++
            httpErrorMessage status body statusText), none, none⟩
        | .badJson raw =>
          ⟨false, none, some "Invalid JSON response from server",
            some (.text raw), none⟩
        | .ok body =>
          match validateAndNormalizeInvoiceResponse body (some (jsTrim po))
              env.now env.rand env.dateStr with
          | .ok inv => ⟨true, some inv, none, none, some "api"⟩
          | .fail => ⟨false, none,
              some "Invalid response structure from API. The response may be missing required fields.",
              some (.json body), none⟩
          | .throws => ⟨false, none, some typeErrorMessage, none, none⟩
        | .throws e =>
          if e.isError ∧ strIncludes e.message "fetch" = true then
            ⟨true, some (fallbackInvoice (jsTrim po) env.now env.rand env.dateStr),
              none, none, some "generated"⟩
          else
            ⟨false, none,
              some (if e.isError then e.message
                else "An unexpected error occurred during invoice generation"),
              none, none⟩

/-! ## Claim C4 -/

/-- C4: after input validation passes (nonempty trimmed PO), the existence
check finds nothing, and the configuration check passes, an exception from
the generation call that is a transport failure — an `Error` whose message
contains `"fetch"` — makes `generateAIInvoice` return `success = true`
with `source = "generated"` and the synthesized placeholder invoice:
fallback-pattern id, today and today+30-days dates, `"Net 30"` terms,
`"Standard"` shipping, placeholder contacts, empty items, all-zero
summary, `"Pending"` status, and notes stating that this is a fallback for
this PO due to API unavailability.  An `Error` whose message does not
mention `"fetch"` yields `success = false` with that error's message, and
a thrown non-`Error` yields `success = false` with the generic message. -/
theorem c4_network_failure_fallback
    (po : String) (env : GenEnv) (e : JSException)
    (hpo1 : po ≠ "") (hpo2 : jsTrim po ≠ "")
    (hdb : env.dbInvoice = none) (hcfg : env.apiBaseSet = true)
    (hcall : env.apiCall = .throws e) :
    (e.isError = true → strIncludes e.message "fetch" = true →
      generateAIInvoice po env =
        ⟨true, some (fallbackInvoice (jsTrim po) env.now env.rand env.dateStr),
          none, none, some "generated"⟩ ∧
      (fallbackInvoice (jsTrim po) env.now env.rand env.dateStr).invoice_id =
        generateFallbackInvoiceId (jsTrim po) env.now env.rand ∧
      (fallbackInvoice (jsTrim po) env.now env.rand env.dateStr).invoice_date =
        .str (env.dateStr env.now) ∧
      (fallbackInvoice (jsTrim po) env.now env.rand env.dateStr).due_date =
        .str (env.dateStr (env.now + 30 * 24 * 60 * 60 * 1000)) ∧
      (fallbackInvoice (jsTrim po) env.now env.rand env.dateStr).payment_terms =
        .str "Net 30" ∧
      (fallbackInvoice (jsTrim po) env.now env.rand env.dateStr).shipping_method =
        .str "Standard" ∧
      (fallbackInvoice (jsTrim po) env.now env.rand env.dateStr).bill_to =
        ⟨.str "Unknown Company", .str "Unknown Contact", .str "Unknown Address",
          .str "", .str ""⟩ ∧
      (fallbackInvoice (jsTrim po) env.now env.rand env.dateStr).vendor =
        ⟨.str "Unknown Vendor", .str "Unknown Contact", .str "Unknown Address",
          .str "", .str ""⟩ ∧
      (fallbackInvoice (jsTrim po) env.now env.rand env.dateStr).items = [] ∧
      (fallbackInvoice (jsTrim po) env.now env.rand env.dateStr).summary =
        ⟨.val 0, .val 0, .val 0, .val 0, .val 0⟩ ∧
      (fallbackInvoice (jsTrim po) env.now env.rand env.dateStr).payment_status =
        .str "Pending" ∧
      (fallbackInvoice (jsTrim po) env.now env.rand env.dateStr).notes =
        .str ("Fallback invoice generated for PO " ++ jsTrim po ++
          " due to API unavailability. Please update with correct information.")) ∧
    (e.isError = true → strIncludes e.message "fetch" = false →
      generateAIInvoice po env = ⟨false, none, some e.message, none, none⟩) ∧
    (e.isError = false →
      generateAIInvoice po env =
        ⟨false, none,
          some "An unexpected error occurred during invoice generation",
          none, none⟩) := by
  have hmain : ∀ r : InvoiceGenerationResult,
      (match env.apiCall with
        | .httpError status body statusText =>
          (⟨false, none, some ("Failed to generate invoice: " ++
            httpErrorMessage status body statusText), none, none⟩ :
              InvoiceGenerationResult)
        | .badJson raw =>
          ⟨false, none, some "Invalid JSON response from server",
            some (.text raw), none⟩
        | .ok body =>
          match validateAndNormalizeInvoiceResponse body (some (jsTrim po))
              env.now env.rand env.dateStr with
          | .ok inv => ⟨true, some inv, none, none, some "api"⟩
          | .fail => ⟨false, none,
              some "Invalid response structure from API. The response may be missing required fields.",
              some (.json body), none⟩
          | .throws => ⟨false, none, some typeErrorMessage, none, none⟩
        | .throws e' =>
          if e'.isError ∧ strIncludes e'.message "fetch" = true then
            ⟨true, some (fallbackInvoice (jsTrim po) env.now env.rand env.dateStr),
              none, none, some "generated"⟩
          else
            ⟨false, none,
              some (if e'.isError then e'.message
                else "An unexpected error occurred during invoice generation"),
              none, none⟩) = r →
      generateAIInvoice po env = r := by
    intro r hr
    unfold generateAIInvoice getExistingInvoiceFromDatabase
    rw [if_neg (by push_neg; exact ⟨hpo1, hpo2⟩), hcfg, hdb]
    simpa using hr
  refine ⟨?_, ?_, ?_⟩
  · intro hisErr hfetch
    refine ⟨?_, rfl, rfl, rfl, rfl, rfl, rfl, rfl, rfl, rfl, rfl, rfl⟩
    apply hmain
    simp only [hcall]
    rw [if_pos ⟨hisErr, hfetch⟩]
  · intro hisErr hfetch
    apply hmain
    simp only [hcall]
    rw [if_neg (by intro hc; rw [hfetch] at hc; exact Bool.false_ne_true hc.2)]
    rw [if_pos hisErr]
  · intro hisErr
    apply hmain
    simp only [hcall]
    rw [if_neg (by intro hc; rw [hisErr] at hc; exact Bool.false_ne_true hc.1)]
    rw [if_neg (by rw [hisErr]; exact Bool.false_ne_true)]

/-- C4 witness: the theorem applied to a concrete environment whose
generation call throws `Error("Failed to fetch")` (fallback path) and to
one throwing `Error("boom")` (failure path). -/
theorem c4_network_fallback_witness :
    generateAIInvoice "PO-9"
        ⟨true, none, .throws ⟨true, "Failed to fetch"⟩, 5, 7, fun _ => "D"⟩ =
      ⟨true, some (fallbackInvoice "PO-9" 5 7 (fun _ => "D")), none, none,
        some "generated"⟩ ∧
    generateAIInvoice "PO-9"
        ⟨true, none, .throws ⟨true, "boom"⟩, 5, 7, fun _ => "D"⟩ =
      ⟨false, none, some "boom", none, none⟩ :=
  ⟨by
    have h := (c4_network_failure_fallback "PO-9"
      ⟨true, none, .throws ⟨true, "Failed to fetch"⟩, 5, 7, fun _ => "D"⟩
      ⟨true, "Failed to fetch"⟩ (by decide) (by decide) rfl rfl rfl).1
      rfl (by decide)
    have h2 := h.1
    have hpo : jsTrim "PO-9" = "PO-9" := by decide
    rw [hpo] at h2
    exact h2,
   by
    have h := (c4_network_failure_fallback "PO-9"
      ⟨true, none, .throws ⟨true, "boom"⟩, 5, 7, fun _ => "D"⟩
      ⟨true, "boom"⟩ (by decide) (by decide) rfl rfl rfl).2.1
      rfl (by decide)
    exact h⟩
